import Mathlib

/-!
Verification development for the aquatic-ecosystem simulation
(`src/game_logic.py` + `src/config.py`, the variant driven by `src/main.py`).

Modelling conventions (shallow embedding):
* Python floats are modelled as `ℚ`.  All float comparisons the source makes
  through `math.hypot` (`dist <= r`, `dist < r`, `dist > 0`) are modelled in
  exact squared form (`d2 ≤ r^2 ∧ 0 ≤ r`, …), which is equivalent to the
  real-valued comparison; where the source uses the *value* of `math.hypot`
  (unit vectors), we use `Rat.sqrt`, which agrees with the real square root
  whenever the radicand is a perfect square (all concrete runs below are
  chosen so that this is the case).
* Calls to `random.random()`, `random.randint(a, b)` and
  `random.uniform(a, b)` are modelled by reading the next outcome from an
  injected stream `Rng` (the outcome is the produced value itself).  An empty
  stream yields `1`, which makes every `random.random() < p` check fail for
  `p ≤ 1` (the "no random event" default).
* Python object identity is modelled through the entity id `eid`
  (`Ecosystem._assign_id` makes ids unique in every reachable state);
  `x == y`, `x in list` and `list.remove(x)` on entities are modelled through
  ids / decidable record equality.
* `pygame.Rect` stores truncated-to-int coordinates; `truncQ` models
  Python's `int()` (truncation toward zero).  The rect of an entity is kept
  in sync with its position by the source (`update_position` is called after
  every position change), so it is modelled as a derived function.
-/

namespace EcoSim

/-! ### Constants from `src/config.py` (names kept) -/

def SCREEN_WIDTH : ℚ := 1280
def SCREEN_HEIGHT : ℚ := 720
def PANEL_WIDTH : ℚ := 280
def GAME_AREA_WIDTH : ℚ := SCREEN_WIDTH - PANEL_WIDTH

def DAY_CYCLE_TURNS : ℚ := 32
def DAYS_PER_SEASON : ℤ := 6
def SEASONS_ORDER : List String := ["Primavera", "Verano", "Otoño", "Invierno"]

def POPULATION_LIMITS_plantas_min : ℕ := 0
def POPULATION_LIMITS_plantas_max : ℕ := 100
def POPULATION_LIMITS_peces_min : ℕ := 0
def POPULATION_LIMITS_peces_max : ℕ := 50
def POPULATION_LIMITS_truchas_min : ℕ := 0
def POPULATION_LIMITS_truchas_max : ℕ := 30
def POPULATION_LIMITS_tiburones_min : ℕ := 0
def POPULATION_LIMITS_tiburones_max : ℕ := 15

def FISH_SCHOOL_RADIUS : ℚ := 140
def FISH_SCHOOL_MIN_NEIGHBORS : ℕ := 2
def FISH_SEPARATION_DISTANCE : ℚ := 30

def TROUT_PACK_RADIUS : ℚ := 220
def TROUT_MAX_PACK_SIZE : ℕ := 3
def TROUT_MIN_ALLIES_FOR_PACK : ℕ := 1
def TROUT_ESCAPE_RADAR : ℚ := 190
def TROUT_ESCAPE_SPEED_MULTIPLIER : ℚ := 1.6

def SHARK_HUNGER_THRESHOLD : ℚ := 0.65
def SHARK_HUNT_RADIUS_RELAXED : ℚ := 260
def SHARK_HUNT_RADIUS_HUNGRY : ℚ := 400
def SHARK_TARGET_PERSISTENCE : ℚ := 480

/-- Season movement modifiers from `SEASONS_CONFIG[...]["modifiers"]["movement"]`
(the `dict.get` default is 1.0). -/
def season_movement (s : String) : ℚ :=
  if s = "Primavera" then 1.05
  else if s = "Verano" then 1.08
  else if s = "Otoño" then 0.95
  else if s = "Invierno" then 0.82
  else 1

/-- Season energy-consumption modifiers from
`SEASONS_CONFIG[...]["modifiers"]["energy_consumption"]`. -/
def season_energy_consumption (s : String) : ℚ :=
  if s = "Primavera" then 0.92
  else if s = "Verano" then 1.05
  else if s = "Otoño" then 0.98
  else if s = "Invierno" then 1.2
  else 1

/-! ### Randomness as an injected outcome stream -/

/-- Stream of outcomes for the `random.*` calls of the source.  `next` on an
exhausted stream yields `1` (so `random.random() < p` fails for `p ≤ 1`). -/
structure Rng where
  rolls : List ℚ
deriving DecidableEq

def Rng.next : Rng → ℚ × Rng
  | ⟨[]⟩ => (1, ⟨[]⟩)
  | ⟨r :: rs⟩ => (r, ⟨rs⟩)

/-! ### Geometry -/

/-- Squared Euclidean distance; `math.hypot (x2-x1) (y2-y1) ^ 2`. -/
def dist2 (x1 y1 x2 y2 : ℚ) : ℚ := (x2 - x1) ^ 2 + (y2 - y1) ^ 2

/-- `Real.sqrt d2 ≤ r`, stated in exact rational form (`d2` is a squared
distance, hence nonnegative). -/
def distLe (d2 r : ℚ) : Bool := decide (0 ≤ r) && decide (d2 ≤ r ^ 2)

/-- `Real.sqrt d2 < r` in exact rational form. -/
def distLt (d2 r : ℚ) : Bool := decide (0 < r) && decide (d2 < r ^ 2)

/-- Python `int()`: truncation toward zero. -/
def truncQ (q : ℚ) : ℤ := if 0 ≤ q then ⌊q⌋ else ⌈q⌉

/-- `pygame.Rect` (integer position and size). -/
structure PyRect where
  x : ℤ
  y : ℤ
  w : ℤ
  h : ℤ
deriving DecidableEq

/-- `pygame.Rect.colliderect`: strict overlap test. -/
def colliderect (a b : PyRect) : Bool :=
  decide (a.x < b.x + b.w) && decide (b.x < a.x + a.w) &&
  decide (a.y < b.y + b.h) && decide (b.y < a.y + a.h)

/-! ### Entity model (`Plant`, `Animal` with its `Fish`/`Trout`/`Shark`
subclasses collapsed into a `species` tag) -/

inductive Species where
  | fish
  | trout
  | shark
deriving DecidableEq

inductive AState where
  | idle
  | fleeing
  | eating
  | schooling
  | moving
  | hunting
  | patrolling
deriving DecidableEq

/-- `Plant` (`Entity` subclass).  Plants never move, so the inherited
`target_x/target_y` fields (never read for plants) are omitted. -/
structure Plant where
  eid : ℕ
  x : ℚ
  y : ℚ
  width : ℚ
  height : ℚ
  growth : ℚ
  energy_value : ℚ
deriving DecidableEq

/-- The `Animal` base class with the per-species constants carried in the
record; `target_entity` is modelled as the id of the referenced entity
(`targetId`), re-validated against the owning collection before use, exactly
as the source checks `self.target_entity in ecosystem.fish` etc. -/
structure Animal where
  eid : ℕ
  species : Species
  x : ℚ
  y : ℚ
  width : ℚ
  height : ℚ
  energy : ℚ
  max_energy : ℚ
  lifespan : ℚ
  age : ℚ
  base_speed : ℚ
  speed : ℚ
  base_consumption : ℚ
  consumption : ℚ
  direction : ℤ
  state : AState
  targetId : Option ℕ
  target_x : ℚ
  target_y : ℚ
  season_move_mult : ℚ
deriving DecidableEq

/-- `Plant.__init__` (size 14×14, `energy_value = 20.0`, `growth = 100`). -/
def Plant.new (eid : ℕ) (x y : ℚ) : Plant :=
  { eid := eid, x := x, y := y, width := 14, height := 14,
    growth := 100, energy_value := 20 }

/-- `Fish.__init__`: energy 70 / 100, lifespan 120, consumption 1.0;
`base_speed` is the injected outcome of
`random.uniform(FISH_BASE_SPEED_MIN, FISH_BASE_SPEED_MAX)`. -/
def Fish.new (eid : ℕ) (x y base_speed : ℚ) : Animal :=
  { eid := eid, species := .fish, x := x, y := y, width := 20, height := 20,
    energy := 70, max_energy := 100, lifespan := 120, age := 0,
    base_speed := base_speed, speed := base_speed,
    base_consumption := 1, consumption := 1,
    direction := 1, state := .idle, targetId := none,
    target_x := x, target_y := y, season_move_mult := 1 }

/-- `Trout.__init__`: energy 120 / 180, lifespan 180, consumption 1.5. -/
def Trout.new (eid : ℕ) (x y base_speed : ℚ) : Animal :=
  { eid := eid, species := .trout, x := x, y := y, width := 35, height := 35,
    energy := 120, max_energy := 180, lifespan := 180, age := 0,
    base_speed := base_speed, speed := base_speed,
    base_consumption := 1.5, consumption := 1.5,
    direction := 1, state := .idle, targetId := none,
    target_x := x, target_y := y, season_move_mult := 1 }

/-- `Shark.__init__`: energy 200 / 300, lifespan 300, consumption 0.8. -/
def Shark.new (eid : ℕ) (x y base_speed : ℚ) : Animal :=
  { eid := eid, species := .shark, x := x, y := y, width := 45, height := 45,
    energy := 200, max_energy := 300, lifespan := 300, age := 0,
    base_speed := base_speed, speed := base_speed,
    base_consumption := 0.8, consumption := 0.8,
    direction := 1, state := .idle, targetId := none,
    target_x := x, target_y := y, season_move_mult := 1 }

def Animal.rect (a : Animal) : PyRect :=
  ⟨truncQ a.x, truncQ a.y, truncQ a.width, truncQ a.height⟩

def Plant.rect (p : Plant) : PyRect :=
  ⟨truncQ p.x, truncQ p.y, truncQ p.width, truncQ p.height⟩

/-- `Entity.clamp_to_bounds`. -/
def Animal.clamp_to_bounds (a : Animal) : Animal :=
  { a with x := max 0 (min a.x (GAME_AREA_WIDTH - a.width)),
           y := max 0 (min a.y (SCREEN_HEIGHT - a.height)) }

/-- `Entity.move_towards_target` (returns the moved animal and the
arrived-flag).  `dist < speed or dist < 0.5` and `dist > 0` are modelled in
exact squared form; the step `dx / dist * speed` uses `Rat.sqrt`. -/
def Animal.move_towards_target (a0 : Animal) (speed : ℚ) : Animal × Bool :=
  let max_x := GAME_AREA_WIDTH - a0.width
  let max_y := SCREEN_HEIGHT - a0.height
  let a := { a0 with target_x := max 0 (min a0.target_x max_x),
                     target_y := max 0 (min a0.target_y max_y) }
  let dx := a.target_x - a.x
  let dy := a.target_y - a.y
  let d2 := dx ^ 2 + dy ^ 2
  if distLt d2 speed || distLt d2 0.5 then
    let a1 := Animal.clamp_to_bounds { a with x := a.target_x, y := a.target_y }
    let a2 := if dx ≠ 0 then { a1 with direction := if 0 < dx then 1 else -1 } else a1
    (a2, true)
  else
    let a1 := if 0 < d2 then
        { a with x := a.x + dx / Rat.sqrt d2 * speed,
                 y := a.y + dy / Rat.sqrt d2 * speed }
      else a
    let a2 := if dx ≠ 0 then { a1 with direction := if 0 < dx then 1 else -1 } else a1
    (Animal.clamp_to_bounds a2, false)

/-- `Entity.set_random_position`: the two stream outcomes are the values of
`random.randint(0, max(0, max_x))` and `random.randint(0, max(0, max_y))`. -/
def Animal.set_random_position (a : Animal) (rng : Rng) : Animal × Rng :=
  let (rx, rng1) := rng.next
  let (ry, rng2) := rng1.next
  ({ a with x := rx, y := ry, target_x := rx, target_y := ry }, rng2)

def Plant.set_random_position (p : Plant) (rng : Rng) : Plant × Rng :=
  let (rx, rng1) := rng.next
  let (ry, rng2) := rng1.next
  ({ p with x := rx, y := ry }, rng2)

/-- `Plant.consume`: yields `energy_value * growth/100` and resets growth. -/
def Plant.consume (p : Plant) : ℚ × Plant :=
  (p.energy_value * (p.growth / 100), { p with growth := 0 })

/-- `Plant.grow`. -/
def Plant.grow (delta_time : ℚ) (p : Plant) : Plant :=
  { p with growth := min 100 (p.growth + delta_time * 10) }

/-- `Animal.is_dead`: `energy <= 0.0 or age >= lifespan`. -/
def Animal.is_dead (a : Animal) : Bool :=
  decide (a.energy ≤ 0) || decide (a.lifespan ≤ a.age)

/-! ### Time (`TimeSystem`); only the fields the core reads are embedded.
All derived fields are recomputed from `turn` (`_recalculate`). -/

structure TimeSystem where
  turn : ℚ
deriving DecidableEq

def TimeSystem.day (ts : TimeSystem) : ℤ := ⌊ts.turn / DAY_CYCLE_TURNS⌋ + 1

def TimeSystem.season_index (ts : TimeSystem) : ℤ :=
  (Int.fdiv (ts.day - 1) DAYS_PER_SEASON) % 4

def TimeSystem.get_season (ts : TimeSystem) : String :=
  SEASONS_ORDER.getD ts.season_index.toNat "Primavera"

def TimeSystem.update (ts : TimeSystem) (delta_turns : ℚ) : TimeSystem :=
  ⟨ts.turn + delta_turns⟩

/-- `Animal.apply_season_modifiers`. -/
def Animal.apply_season_modifiers (a : Animal) (season : String) : Animal :=
  let mv := season_movement season
  let cons := season_energy_consumption season
  { a with season_move_mult := mv,
           speed := a.base_speed * mv,
           consumption := a.base_consumption * cons }

/-! ### Ecosystem data and the spatial neighbor queries -/

/-- Entries of `Ecosystem.events` (this-turn-only transient log). -/
inductive Event where
  | birth (x y : ℚ) (species : String)
  | death (x y : ℚ)
  | eat (x y : ℚ) (energy : ℚ) (eater : String)
deriving DecidableEq

structure Ecosystem where
  plants : List Plant
  fish : List Animal
  trout : List Animal
  sharks : List Animal
  time_system : TimeSystem
  events : List Event
  turn_count : ℕ
  paused : Bool
  simulation_speed : ℚ
  next_entity_id : ℕ
deriving DecidableEq

/-- Relation "closer to `(cx, cy)` than", the sort key of
`Ecosystem.get_nearby_entities` (squared distance orders exactly like the
source's `math.hypot` key). -/
def distOrder (cx cy : ℚ) (px py : α → ℚ) (a b : α) : Prop :=
  dist2 cx cy (px a) (py a) ≤ dist2 cx cy (px b) (py b)

instance (cx cy : ℚ) (px py : α → ℚ) : DecidableRel (distOrder cx cy px py) :=
  fun a b => by unfold distOrder; infer_instance

instance (cx cy : ℚ) (px py : α → ℚ) : IsTotal α (distOrder cx cy px py) :=
  ⟨fun a b => le_total _ _⟩

instance (cx cy : ℚ) (px py : α → ℚ) : IsTrans α (distOrder cx cy px py) :=
  ⟨fun _ _ _ => le_trans⟩

/-- `Ecosystem.get_nearby_entities`, generic over the entity list: keep the
entities other than the querying one within `radius` (inclusive), sorted by
ascending Euclidean distance (stable sort, like Python's `list.sort`).
Identity (`other == entity`) is modelled by id inequality. -/
def get_nearby_entities (cx cy : ℚ) (selfId : ℕ) (radius : ℚ)
    (l : List α) (pid : α → ℕ) (px py : α → ℚ) : List α :=
  (l.filter (fun o => decide (pid o ≠ selfId) &&
      distLe (dist2 cx cy (px o) (py o)) radius)).insertionSort
    (distOrder cx cy px py)

def Ecosystem.get_nearby_plants (e : Ecosystem) (a : Animal) (radius : ℚ) : List Plant :=
  get_nearby_entities a.x a.y a.eid radius e.plants Plant.eid Plant.x Plant.y

def Ecosystem.get_nearby_fish (e : Ecosystem) (a : Animal) (radius : ℚ) : List Animal :=
  get_nearby_entities a.x a.y a.eid radius e.fish Animal.eid Animal.x Animal.y

def Ecosystem.get_nearby_trout (e : Ecosystem) (a : Animal) (radius : ℚ) : List Animal :=
  get_nearby_entities a.x a.y a.eid radius e.trout Animal.eid Animal.x Animal.y

def Ecosystem.get_nearby_sharks (e : Ecosystem) (a : Animal) (radius : ℚ) : List Animal :=
  get_nearby_entities a.x a.y a.eid radius e.sharks Animal.eid Animal.x Animal.y

/-- `Ecosystem.get_nearby_predators` (`isinstance` dispatch on the caller). -/
def Ecosystem.get_nearby_predators (e : Ecosystem) (a : Animal) (radius : ℚ) : List Animal :=
  match a.species with
  | .fish => e.get_nearby_trout a radius ++ e.get_nearby_sharks a radius
  | .trout => e.get_nearby_sharks a radius
  | .shark => []

/-- `Ecosystem.form_trout_pack`: the leader plus up to `max_size - 1`
nearest allies. -/
def Ecosystem.form_trout_pack (e : Ecosystem) (leader : Animal)
    (radius : ℚ) (max_size : ℕ) : List Animal :=
  leader :: (e.get_nearby_trout leader radius).take (max_size - 1)

/-! ### Eating (`can_eat` / `eat`), with the source's dynamic dispatch -/

/-- A dynamically-typed `Entity` argument, as passed to `can_eat` / `eat`. -/
inductive Being where
  | plant (p : Plant)
  | animal (a : Animal)
deriving DecidableEq

/-- `Fish.can_eat` / `Trout.can_eat` / `Shark.can_eat` (`isinstance` chains). -/
def Animal.can_eat (a : Animal) (o : Being) : Bool :=
  match a.species, o with
  | .fish, .plant _ => true
  | .trout, .animal q => q.species == .fish
  | .shark, .animal q => q.species == .trout
  | _, _ => false

/-- `Fish.eat` / `Trout.eat` / `Shark.eat`: returns the energy gained, the
updated eater and the (for plants: consumed) prey.  Wrong-species arguments
return `0.0` and change nothing. -/
def Animal.eat (a : Animal) (o : Being) : ℚ × Animal × Being :=
  if a.can_eat o then
    match a.species, o with
    | .fish, .plant p =>
      let (energy, p1) := p.consume
      (energy,
       { a with energy := min a.max_energy (a.energy + energy),
                state := .idle, targetId := none },
       .plant p1)
    | .trout, .animal q =>
      let energy := min 35 (q.energy * 0.5)
      (energy,
       { a with energy := min a.max_energy (a.energy + energy),
                state := .idle, targetId := none },
       .animal q)
    | .shark, .animal q =>
      let energy := min 85 (q.energy * 0.7)
      (energy,
       { a with energy := min a.max_energy (a.energy + energy),
                state := .idle, targetId := none },
       .animal q)
    | _, _ => (0, a, o)
  else (0, a, o)

/-- `Animal.eat` specialised to a plant prey (helper unpacking the `Being`). -/
def Animal.eatPlant (a : Animal) (p : Plant) : ℚ × Animal × Plant :=
  match a.eat (Being.plant p) with
  | (en, a1, .plant p1) => (en, a1, p1)
  | (en, a1, _) => (en, a1, p)

/-- `Animal.eat` specialised to an animal prey. -/
def Animal.eatAnimal (a : Animal) (q : Animal) : ℚ × Animal × Animal :=
  match a.eat (Being.animal q) with
  | (en, a1, .animal q1) => (en, a1, q1)
  | (en, a1, _) => (en, a1, q)

/-! ### Reproduction -/

/-- `can_reproduce` per species; the probability roll is drawn from the
stream only when the energy and age conditions already hold (Python's
short-circuit evaluation of `and`). -/
def Animal.can_reproduce (a : Animal) (rng : Rng) : Bool × Rng :=
  match a.species with
  | .fish =>
    if a.max_energy * 0.7 < a.energy ∧ 3 < a.age then
      let (roll, rng1) := rng.next
      (decide (roll < 0.1), rng1)
    else (false, rng)
  | .trout =>
    if a.max_energy * 0.6 < a.energy ∧ 6 < a.age then
      let (roll, rng1) := rng.next
      (decide (roll < 0.08), rng1)
    else (false, rng)
  | .shark =>
    if a.max_energy * 0.7 < a.energy ∧ 8 < a.age then
      let (roll, rng1) := rng.next
      (decide (roll < 0.05), rng1)
    else (false, rng)

/-- `reproduce` per species: re-checks `can_reproduce`, deducts the energy
cost from the parent and builds the offspring at the parent's position with
the species' reduced starting energy (the offspring constructor draws its
`base_speed` from the stream).  The offspring id is the unassigned marker
`0` (the source uses `-1`) until `Ecosystem._assign_id` runs. -/
def Animal.reproduce (a : Animal) (rng : Rng) : Option (Animal × Animal) × Rng :=
  let (ok, rng1) := a.can_reproduce rng
  if ok then
    match a.species with
    | .fish =>
      let (bs, rng2) := rng1.next
      (some ({ a with energy := a.energy - 30 },
             { Fish.new 0 a.x a.y bs with energy := 50 }), rng2)
    | .trout =>
      let (bs, rng2) := rng1.next
      (some ({ a with energy := a.energy - 50 },
             { Trout.new 0 a.x a.y bs with energy := 100 }), rng2)
    | .shark =>
      let (bs, rng2) := rng1.next
      (some ({ a with energy := a.energy - 80 },
             { Shark.new 0 a.x a.y bs with energy := 150 }), rng2)
  else (none, rng1)

/-! ### Behavior: per-species `decide_action` -/

/-- `Fish.decide_action`: flee nearest predator, else eat when hungry, else
school (cohesion + separation), else occasional wander.  When a branch of
the source falls through without `return` (`dist == 0` flee, hungry with no
plant in range), the chain continues exactly as in the source. -/
def Fish.decide_school_wander (a : Animal) (e : Ecosystem) (rng : Rng) :
    Animal × Rng :=
  let school := e.get_nearby_fish a FISH_SCHOOL_RADIUS
  if FISH_SCHOOL_MIN_NEIGHBORS ≤ school.length then
    let n : ℚ := school.length
    let avg_x := (school.map Animal.x).sum / n
    let avg_y := (school.map Animal.y).sum / n
    let sep := school.foldl (fun (s : ℚ × ℚ) other =>
      let dx := a.x - other.x
      let dy := a.y - other.y
      let d2 := dx ^ 2 + dy ^ 2
      if 0 < d2 ∧ d2 < FISH_SEPARATION_DISTANCE ^ 2 then
        let d := Rat.sqrt d2
        (s.1 + dx / d, s.2 + dy / d)
      else s) (0, 0)
    ({ a with target_x := a.x + (avg_x - a.x) * 0.4 + sep.1 * 25,
              target_y := a.y + (avg_y - a.y) * 0.4 + sep.2 * 25,
              state := .schooling }, rng)
  else
    let (roll, rng1) := rng.next
    if roll < 0.05 then
      let (rx, rng2) := rng1.next
      let (ry, rng3) := rng2.next
      ({ a with target_x := a.x + rx, target_y := a.y + ry,
                state := .moving }, rng3)
    else (a, rng1)

/-- The hunger branch of `Fish.decide_action` (falls through to
schooling/wandering when not hungry or no plant is in range). -/
def Fish.decide_hunger (a : Animal) (e : Ecosystem) (rng : Rng) : Animal × Rng :=
  if a.energy < a.max_energy * 0.3 then
    match e.get_nearby_plants a 120 with
    | plant :: _ =>
      ({ a with target_x := plant.x, target_y := plant.y,
                state := .eating, targetId := some plant.eid }, rng)
    | [] => Fish.decide_school_wander a e rng
  else Fish.decide_school_wander a e rng

def Fish.decide_action (a : Animal) (e : Ecosystem) (rng : Rng) : Animal × Rng :=
  match e.get_nearby_predators a 150 with
  | predator :: _ =>
    let dx := a.x - predator.x
    let dy := a.y - predator.y
    let d2 := dx ^ 2 + dy ^ 2
    if 0 < d2 then
      let dist := Rat.sqrt d2
      ({ a with target_x := a.x + dx / dist * 120,
                target_y := a.y + dy / dist * 120,
                state := .fleeing }, rng)
    else Fish.decide_hunger a e rng
  | [] => Fish.decide_hunger a e rng

/-- Target selection of `Trout.decide_action`: keep the held fish target when
it is hungry and the target is still in the live fish collection, otherwise
(still hungry) acquire the nearest fish within 260; when not hungry the
target reference is cleared.  Returns the selected live target and the trout
with its `target_entity` field as the source leaves it. -/
def Trout.select_target (a : Animal) (e : Ecosystem) : Option Animal × Animal :=
  let hungry := a.energy < a.max_energy * 0.45
  if hungry then
    match a.targetId.bind (fun fid => e.fish.find? (fun f => f.eid == fid)) with
    | some f => (some f, a)
    | none =>
      let fishes := e.get_nearby_fish a 260
      (fishes.head?, { a with targetId := fishes.head?.map Animal.eid })
  else (none, { a with targetId := none })

/-- The field updates the pack branch applies to every pack member. -/
def Trout.hunt_assign (tgt : Animal) (m : Animal) : Animal :=
  { m with targetId := some tgt.eid, target_x := tgt.x, target_y := tgt.y,
           state := .hunting }

/-- Rest of `Trout.decide_action` after the shark check: hunt (pack or solo)
when hungry with a target, else loiter near allies, else occasional wander.
The pack branch mutates the other pack members inside `ecosystem.trout`, so
the (possibly updated) ecosystem is returned alongside the trout. -/
def Trout.decide_rest (a0 : Animal) (e : Ecosystem) (rng : Rng) :
    Animal × Ecosystem × Rng :=
  let hungry := a0.energy < a0.max_energy * 0.45
  let sel := Trout.select_target a0 e
  let a := sel.2
  match decide hungry, sel.1 with
  | true, some tgt =>
    let allies := e.get_nearby_trout a TROUT_PACK_RADIUS
    if TROUT_MIN_ALLIES_FOR_PACK ≤ allies.length then
      let pack := e.form_trout_pack a TROUT_PACK_RADIUS TROUT_MAX_PACK_SIZE
      let packIds := pack.map Animal.eid
      let e1 := { e with trout := e.trout.map (fun m =>
        if packIds.contains m.eid then Trout.hunt_assign tgt m else m) }
      (Trout.hunt_assign tgt a, e1, rng)
    else
      ({ a with target_x := tgt.x, target_y := tgt.y, state := .hunting }, e, rng)
  | _, _ =>
    let allies := e.get_nearby_trout a 120
    if allies.length ≠ 0 then
      let n : ℚ := allies.length
      let avg_x := (allies.map Animal.x).sum / n
      let avg_y := (allies.map Animal.y).sum / n
      let (rx, rng1) := rng.next
      let (ry, rng2) := rng1.next
      ({ a with target_x := avg_x + rx, target_y := avg_y + ry,
                state := .moving }, e, rng2)
    else
      let (roll, rng1) := rng.next
      if roll < 0.03 then
        let (rx, rng2) := rng1.next
        let (ry, rng3) := rng2.next
        ({ a with target_x := a.x + rx, target_y := a.y + ry,
                  state := .moving }, e, rng3)
      else (a, e, rng1)

/-- `Trout.decide_action`: flee a shark within the escape radar at boosted
speed (the speed reverts to base·season only on the no-shark path, exactly
as in the source, whose `else` is skipped when a shark is at distance 0). -/
def Trout.decide_action (a : Animal) (e : Ecosystem) (rng : Rng) :
    Animal × Ecosystem × Rng :=
  match e.get_nearby_sharks a TROUT_ESCAPE_RADAR with
  | shark :: _ =>
    let dx := a.x - shark.x
    let dy := a.y - shark.y
    let d2 := dx ^ 2 + dy ^ 2
    if 0 < d2 then
      let dist := Rat.sqrt d2
      ({ a with target_x := a.x + dx / dist * 140,
                target_y := a.y + dy / dist * 140,
                speed := a.base_speed * a.season_move_mult * TROUT_ESCAPE_SPEED_MULTIPLIER,
                state := .fleeing, targetId := none }, e, rng)
    else Trout.decide_rest a e rng
  | [] =>
    Trout.decide_rest { a with speed := a.base_speed * a.season_move_mult } e rng

/-- `Shark.decide_action`: hunger-scaled hunt radius, target persistence up
to `SHARK_TARGET_PERSISTENCE` on a still-live trout, otherwise re-acquire the
nearest trout in the hunt radius; pursue with a lead-point offset, else
occasional patrol toward the play-area center. -/
def Shark.decide_action (a : Animal) (e : Ecosystem) (rng : Rng) : Animal × Rng :=
  let fullness := a.energy / a.max_energy
  let hunt_radius := if fullness < SHARK_HUNGER_THRESHOLD
    then SHARK_HUNT_RADIUS_HUNGRY else SHARK_HUNT_RADIUS_RELAXED
  let locked :=
    match a.targetId.bind (fun tid => e.trout.find? (fun t => t.eid == tid)) with
    | some t =>
      if distLe (dist2 a.x a.y t.x t.y) SHARK_TARGET_PERSISTENCE then some t
      else none
    | none => none
  let acquired :=
    match locked with
    | some t => (some t, a)
    | none =>
      match e.get_nearby_trout a hunt_radius with
      | t :: _ => (some t, { a with targetId := some t.eid })
      | [] => (none, a)
  let a1 := acquired.2
  match acquired.1 with
  | some t =>
    let dx := t.x - a1.x
    let dy := t.y - a1.y
    let d2 := dx ^ 2 + dy ^ 2
    let dist := if d2 = 0 then 1 else Rat.sqrt d2
    ({ a1 with target_x := t.x + dx / dist * 0.3 * 40,
               target_y := t.y + dy / dist * 0.3 * 20,
               state := .hunting }, rng)
  | none =>
    let (roll, rng1) := rng.next
    if roll < 0.02 then
      let (rx, rng2) := rng1.next
      let (ry, rng3) := rng2.next
      ({ a1 with target_x := GAME_AREA_WIDTH / 2 + rx,
                 target_y := SCREEN_HEIGHT / 2 + ry,
                 state := .patrolling }, rng3)
    else (a1, rng1)

/-- `Animal.update`: season modifiers, energy consumption and ageing, death
check, decision, then (when not idle) movement toward the target.  The
ecosystem is threaded because the trout pack branch mutates packmates. -/
def Animal.update (a0 : Animal) (delta_time : ℚ) (e : Ecosystem) (rng : Rng) :
    Animal × Ecosystem × Bool × Rng :=
  let a1 := a0.apply_season_modifiers e.time_system.get_season
  let a2 := { a1 with energy := max 0 (a1.energy - a1.consumption * delta_time),
                      age := a1.age + delta_time }
  if a2.is_dead then (a2, e, false, rng)
  else
    let dec :=
      match a2.species with
      | .fish => let (x, r) := Fish.decide_action a2 e rng; (x, e, r)
      | .trout => Trout.decide_action a2 e rng
      | .shark => let (x, r) := Shark.decide_action a2 e rng; (x, e, r)
    let a3 := dec.1
    let e1 := dec.2.1
    let rng1 := dec.2.2
    if a3.state ≠ AState.idle then
      ((a3.move_towards_target (a3.speed * delta_time * 60)).1, e1, true, rng1)
    else (a3, e1, true, rng1)

/-! ### Ecosystem orchestration: `_update_animals`, `_process_interactions`,
`_balance_populations`, `update`, `initialize` -/

/-- `Ecosystem._assign_id` (the unassigned marker is `0`, see
`Animal.reproduce`). -/
def Ecosystem.assign_id_animal (e : Ecosystem) (a : Animal) : Animal × Ecosystem :=
  if a.eid = 0 then
    ({ a with eid := e.next_entity_id },
     { e with next_entity_id := e.next_entity_id + 1 })
  else (a, e)

def Ecosystem.assign_id_plant (e : Ecosystem) (p : Plant) : Plant × Ecosystem :=
  if p.eid = 0 then
    ({ p with eid := e.next_entity_id },
     { e with next_entity_id := e.next_entity_id + 1 })
  else (p, e)

/-- Accumulator of one species loop of `Ecosystem._update_animals`:
the ecosystem (whose lists are mutated in place), the stream, the dead list
and the newborn list of this loop. -/
structure PhaseAcc where
  e : Ecosystem
  rng : Rng
  dead : List Animal
  born : List Animal

/-- Read / write / reproduction step of the `for fish in self.fish:` loop,
acting on the `i`-th list entry in place (Python mutates the shared object).
The newborn is id-assigned, placed at a fresh random position and queued;
the `birth` event is emitted at the parent's position immediately. -/
def fishPhaseStep (delta_time : ℚ) (acc : PhaseAcc) (i : ℕ) : PhaseAcc :=
  match acc.e.fish[i]? with
  | none => acc
  | some a =>
    let (a1, e1, alive, rng1) := a.update delta_time acc.e acc.rng
    let e2 := { e1 with fish := e1.fish.set i a1 }
    if alive then
      let (ok, rng2) := a1.can_reproduce rng1
      if ok then
        match a1.reproduce rng2 with
        | (some (parent, baby0), rng3) =>
          let (baby1, e3) := e2.assign_id_animal baby0
          let (baby2, rng4) := baby1.set_random_position rng3
          let e4 := { e3 with fish := e3.fish.set i parent,
                              events := e3.events ++ [Event.birth parent.x parent.y "pez"] }
          { e := e4, rng := rng4, dead := acc.dead, born := acc.born ++ [baby2] }
        | (none, rng3) => { e := e2, rng := rng3, dead := acc.dead, born := acc.born }
      else { e := e2, rng := rng2, dead := acc.dead, born := acc.born }
    else { e := e2, rng := rng1, dead := acc.dead ++ [a1], born := acc.born }

/-- The `for trout in self.trout:` loop step (the decision may update
packmates inside `e.trout`). -/
def troutPhaseStep (delta_time : ℚ) (acc : PhaseAcc) (i : ℕ) : PhaseAcc :=
  match acc.e.trout[i]? with
  | none => acc
  | some a =>
    let (a1, e1, alive, rng1) := a.update delta_time acc.e acc.rng
    let e2 := { e1 with trout := e1.trout.set i a1 }
    if alive then
      let (ok, rng2) := a1.can_reproduce rng1
      if ok then
        match a1.reproduce rng2 with
        | (some (parent, baby0), rng3) =>
          let (baby1, e3) := e2.assign_id_animal baby0
          let (baby2, rng4) := baby1.set_random_position rng3
          let e4 := { e3 with trout := e3.trout.set i parent,
                              events := e3.events ++ [Event.birth parent.x parent.y "trucha"] }
          { e := e4, rng := rng4, dead := acc.dead, born := acc.born ++ [baby2] }
        | (none, rng3) => { e := e2, rng := rng3, dead := acc.dead, born := acc.born }
      else { e := e2, rng := rng2, dead := acc.dead, born := acc.born }
    else { e := e2, rng := rng1, dead := acc.dead ++ [a1], born := acc.born }

/-- The `for shark in self.sharks:` loop step. -/
def sharkPhaseStep (delta_time : ℚ) (acc : PhaseAcc) (i : ℕ) : PhaseAcc :=
  match acc.e.sharks[i]? with
  | none => acc
  | some a =>
    let (a1, e1, alive, rng1) := a.update delta_time acc.e acc.rng
    let e2 := { e1 with sharks := e1.sharks.set i a1 }
    if alive then
      let (ok, rng2) := a1.can_reproduce rng1
      if ok then
        match a1.reproduce rng2 with
        | (some (parent, baby0), rng3) =>
          let (baby1, e3) := e2.assign_id_animal baby0
          let (baby2, rng4) := baby1.set_random_position rng3
          let e4 := { e3 with sharks := e3.sharks.set i parent,
                              events := e3.events ++ [Event.birth parent.x parent.y "tiburon"] }
          { e := e4, rng := rng4, dead := acc.dead, born := acc.born ++ [baby2] }
        | (none, rng3) => { e := e2, rng := rng3, dead := acc.dead, born := acc.born }
      else { e := e2, rng := rng2, dead := acc.dead, born := acc.born }
    else { e := e2, rng := rng1, dead := acc.dead ++ [a1], born := acc.born }

/-- Batch-removal pass: `for x in dead: if x in lst: lst.remove(x)` plus the
`death` events; removal is by (first occurrence of) record equality, the
model of Python identity on the unique live objects. -/
def removeDead (lst : List Animal) (dead : List Animal) : List Animal × List Event :=
  dead.foldl (fun (s : List Animal × List Event) a =>
    if a ∈ s.1 then (s.1.erase a, s.2 ++ [Event.death a.x a.y]) else s)
    (lst, [])

/-- `Ecosystem._update_animals`: the three sequential species loops, then the
batch removal of the dead (with `death` events), then the newborn extends. -/
def Ecosystem.update_animals (e0 : Ecosystem) (delta_time : ℚ) (rng : Rng) :
    Ecosystem × Rng :=
  let accF := (List.range e0.fish.length).foldl (fishPhaseStep delta_time)
    ⟨e0, rng, [], []⟩
  let accT := (List.range accF.e.trout.length).foldl (troutPhaseStep delta_time)
    ⟨accF.e, accF.rng, [], []⟩
  let accS := (List.range accT.e.sharks.length).foldl (sharkPhaseStep delta_time)
    ⟨accT.e, accT.rng, [], []⟩
  let e := accS.e
  let (fish1, evF) := removeDead e.fish accF.dead
  let (trout1, evT) := removeDead e.trout accT.dead
  let (sharks1, evS) := removeDead e.sharks accS.dead
  ({ e with fish := fish1 ++ accF.born,
            trout := trout1 ++ accT.born,
            sharks := sharks1 ++ accS.born,
            events := e.events ++ evF ++ evT ++ evS }, accS.rng)

/-- One predator's scan of the prey list (`for prey in prey_list[:]:` with
`break` after the first positive-energy eat; a zero-yield eat neither removes
the prey nor emits an event and the scan continues, as in the source).  Each
emitted event is paired with the id of the consumed prey. -/
def scanFirstPrey (eatF : Animal → α → ℚ × Animal × α)
    (rectF : α → PyRect) (evF : Animal → ℚ → Event) (eidF : α → ℕ)
    (pred : Animal) : List α → Animal × List α × List (Event × ℕ)
  | [] => (pred, [], [])
  | q :: qs =>
    if colliderect pred.rect (rectF q) then
      let (energy, pred1, q1) := eatF pred q
      if 0 < energy then (pred1, qs, [(evF pred energy, eidF q)])
      else
        let (pred2, qs1, evs) := scanFirstPrey eatF rectF evF eidF pred1 qs
        (pred2, q1 :: qs1, evs)
    else
      let (pred1, qs1, evs) := scanFirstPrey eatF rectF evF eidF pred qs
      (pred1, q :: qs1, evs)

/-- One full predator collection against one prey collection (a pass of
`Ecosystem._process_interactions`); the prey list shrinks as predators eat. -/
def passPreyAll (eatF : Animal → α → ℚ × Animal × α)
    (rectF : α → PyRect) (evF : Animal → ℚ → Event) (eidF : α → ℕ) :
    List Animal → List α → List Animal × List α × List (Event × ℕ)
  | [], prey => ([], prey, [])
  | p :: ps, prey =>
    let (p1, prey1, evs1) := scanFirstPrey eatF rectF evF eidF p prey
    let (ps1, prey2, evs2) := passPreyAll eatF rectF evF eidF ps prey1
    (p1 :: ps1, prey2, evs1 ++ evs2)

def passFishPlants (fs : List Animal) (plants : List Plant) :
    List Animal × List Plant × List (Event × ℕ) :=
  passPreyAll Animal.eatPlant Plant.rect
    (fun a en => Event.eat a.x a.y en "pez") Plant.eid fs plants

def passTroutFish (ts fs : List Animal) :
    List Animal × List Animal × List (Event × ℕ) :=
  passPreyAll Animal.eatAnimal Animal.rect
    (fun a en => Event.eat a.x a.y en "trucha") Animal.eid ts fs

def passSharkTrout (ss ts : List Animal) :
    List Animal × List Animal × List (Event × ℕ) :=
  passPreyAll Animal.eatAnimal Animal.rect
    (fun a en => Event.eat a.x a.y en "tiburon") Animal.eid ss ts

/-- `Ecosystem._process_interactions`: the three passes in fixed trophic
order Fish→Plant, Trout→Fish, Shark→Trout.  Besides the updated ecosystem it
returns the emitted `eat` events paired with the consumed prey's id. -/
def Ecosystem.process_interactions (e : Ecosystem) :
    Ecosystem × List (Event × ℕ) :=
  let (fish1, plants1, ev1) := passFishPlants e.fish e.plants
  let (trout1, fish2, ev2) := passTroutFish e.trout fish1
  let (sharks1, trout2, ev3) := passSharkTrout e.sharks trout1
  let pairs := ev1 ++ ev2 ++ ev3
  ({ e with plants := plants1, fish := fish2, trout := trout2, sharks := sharks1,
            events := e.events ++ pairs.map Prod.fst }, pairs)

/-- `Ecosystem._balance_populations` of `game_logic.py`: top the *plant*
population up to its configured minimum with fresh random-position spawns,
or trim it down to its configured maximum (`plants[:-excess]` keeps the
oldest `max` plants).  No other species is touched. -/
def Ecosystem.balance_populations (e : Ecosystem) (rng : Rng) : Ecosystem × Rng :=
  if e.plants.length < POPULATION_LIMITS_plantas_min then
    let deficit := POPULATION_LIMITS_plantas_min - e.plants.length
    (List.range deficit).foldl (fun (s : Ecosystem × Rng) _ =>
      let (p0, e1) := s.1.assign_id_plant (Plant.new 0 0 0)
      let (p1, rng1) := p0.set_random_position s.2
      ({ e1 with plants := e1.plants ++ [p1] }, rng1)) (e, rng)
  else if POPULATION_LIMITS_plantas_max < e.plants.length then
    ({ e with plants := e.plants.take POPULATION_LIMITS_plantas_max }, rng)
  else (e, rng)

/-- `Ecosystem.update`: one simulation turn (skipped when paused): clock,
event-log reset, plant growth, the animal loops, the interaction passes, the
population balancing, and the turn counter. -/
def Ecosystem.update (e : Ecosystem) (delta_time : ℚ) (rng : Rng) :
    Ecosystem × Rng :=
  if e.paused then (e, rng) else
  let e1 := { e with time_system := e.time_system.update (delta_time * 10),
                     events := [] }
  let e2 := { e1 with plants := e1.plants.map (Plant.grow delta_time) }
  let (e3, rng1) := e2.update_animals delta_time rng
  let e4 := (e3.process_interactions).1
  let (e5, rng2) := e4.balance_populations rng1
  ({ e5 with turn_count := e5.turn_count + 1 }, rng2)

/-- An empty ecosystem (fresh `Ecosystem()`). -/
def Ecosystem.empty : Ecosystem :=
  { plants := [], fish := [], trout := [], sharks := [],
    time_system := ⟨0⟩, events := [], turn_count := 0, paused := false,
    simulation_speed := 1, next_entity_id := 1 }

/-- `Ecosystem.initialize`: clears every collection and spawns the requested
counts with fresh ids at random positions. -/
def Ecosystem.initialize_population (plantas peces truchas tiburones : ℕ)
    (rng : Rng) : Ecosystem × Rng :=
  let s0 := (Ecosystem.empty, rng)
  let s1 := (List.range plantas).foldl (fun (s : Ecosystem × Rng) _ =>
    let (p0, e1) := s.1.assign_id_plant (Plant.new 0 0 0)
    let (p1, rng1) := p0.set_random_position s.2
    ({ e1 with plants := e1.plants ++ [p1] }, rng1)) s0
  let s2 := (List.range peces).foldl (fun (s : Ecosystem × Rng) _ =>
    let (bs, rngA) := s.2.next
    let (a0, e1) := s.1.assign_id_animal (Fish.new 0 0 0 bs)
    let (a1, rng1) := a0.set_random_position rngA
    ({ e1 with fish := e1.fish ++ [a1] }, rng1)) s1
  let s3 := (List.range truchas).foldl (fun (s : Ecosystem × Rng) _ =>
    let (bs, rngA) := s.2.next
    let (a0, e1) := s.1.assign_id_animal (Trout.new 0 0 0 bs)
    let (a1, rng1) := a0.set_random_position rngA
    ({ e1 with trout := e1.trout ++ [a1] }, rng1)) s2
  let s4 := (List.range tiburones).foldl (fun (s : Ecosystem × Rng) _ =>
    let (bs, rngA) := s.2.next
    let (a0, e1) := s.1.assign_id_animal (Shark.new 0 0 0 bs)
    let (a1, rng1) := a0.set_random_position rngA
    ({ e1 with sharks := e1.sharks ++ [a1] }, rng1)) s3
  s4

/-- Modelled from the spec: the decision an animal would compute "using the
state of all collections as of the start of that turn" — the same per-animal
season/energy/age bookkeeping, but with every collection read from the
start-of-turn ecosystem `e0`.  Used to compare the implementation's
sequential in-place decisions against the spec's snapshot semantics. -/
def snapshotDecision (e0 : Ecosystem) (a0 : Animal) (delta_time : ℚ)
    (rng : Rng) : Animal :=
  let a1 := a0.apply_season_modifiers e0.time_system.get_season
  let a2 := { a1 with energy := max 0 (a1.energy - a1.consumption * delta_time),
                      age := a1.age + delta_time }
  match a2.species with
  | .fish => (Fish.decide_action a2 e0 rng).1
  | .trout => (Trout.decide_action a2 e0 rng).1
  | .shark => (Shark.decide_action a2 e0 rng).1

/-- The observable outcome of a decision: state tag, target reference and
target position. -/
def decisionOf (a : Animal) : AState × Option ℕ × ℚ × ℚ :=
  (a.state, a.targetId, a.target_x, a.target_y)

/-! ### Well-formedness (the states reachable from `initialize`) -/

/-- The per-species `max_energy` fixed by the constructors. -/
def speciesMaxEnergy : Species → ℚ
  | .fish => 100
  | .trout => 180
  | .shark => 300

/-- Energy bounds together with the constructor-fixed per-species constants
(`max_energy`, nonnegative `base_consumption`); these hold for every animal
constructed by the source and are preserved by every turn. -/
def wfAnimal (a : Animal) : Prop :=
  0 ≤ a.energy ∧ a.energy ≤ a.max_energy ∧ 0 ≤ a.base_consumption ∧
  a.max_energy = speciesMaxEnergy a.species

instance (a : Animal) : Decidable (wfAnimal a) := by
  unfold wfAnimal; infer_instance

def wfPlant (p : Plant) : Prop := 0 ≤ p.growth ∧ p.energy_value = 20

instance (p : Plant) : Decidable (wfPlant p) := by
  unfold wfPlant; infer_instance

/-- Ecosystem-wide well-formedness. -/
def WF (e : Ecosystem) : Prop :=
  (∀ a ∈ e.fish, wfAnimal a) ∧ (∀ a ∈ e.trout, wfAnimal a) ∧
  (∀ a ∈ e.sharks, wfAnimal a) ∧ (∀ p ∈ e.plants, wfPlant p)

instance (e : Ecosystem) : Decidable (WF e) := by
  unfold WF; infer_instance

/-! ### Concrete inputs for the counterexamples and witnesses -/

/-- C1: an ecosystem holding 51 fish (one above the configured maximum). -/
def C1_overfull : Ecosystem :=
  { Ecosystem.empty with fish := List.replicate 51 (Fish.new 1 0 0 1) }

/-- C2: a fish that satisfies the reproduction conditions. -/
def C2_parent : Animal := { Fish.new 1 150 0 1 with energy := 80, age := 5 }

def C2_eco : Ecosystem :=
  { Ecosystem.empty with fish := [C2_parent], next_entity_id := 2 }

/-- C2: a trout that satisfies the reproduction conditions
(`0.6 * 180 = 108 < 175` and `6 < 7`). -/
def C2_troutParent : Animal := { Trout.new 4 80 60 1 with energy := 175, age := 7 }

/-- C3: fish A is travelling toward (250, 0) and will arrive this turn. -/
def C3_fishA : Animal :=
  { Fish.new 1 150 0 2 with state := .moving, target_x := 250, target_y := 0 }

def C3_fishB : Animal := Fish.new 2 160 0 1

/-- C3: a hungry trout that will acquire the nearest fish. -/
def C3_troutT : Animal := { Trout.new 3 400 0 1 with energy := 50 }

def C3_eco : Ecosystem :=
  { Ecosystem.empty with fish := [C3_fishA, C3_fishB], trout := [C3_troutT],
                         next_entity_id := 4 }

def C4_eco : Ecosystem :=
  { Ecosystem.empty with fish := [Fish.new 1 10 10 1], next_entity_id := 2 }

def C5_eco : Ecosystem :=
  { Ecosystem.empty with plants := [Plant.new 1 5 5], fish := [Fish.new 2 0 0 1],
                         next_entity_id := 3 }

/-- C6: a shark locked on trout 7, which sits beyond the persistence
distance, while trout 8 is inside the (hungry) hunt radius. -/
def C6_shark : Animal := { Shark.new 9 0 0 1 with energy := 100, targetId := some 7 }

def C6_trout7 : Animal := Trout.new 7 500 0 1

def C6_trout8 : Animal := Trout.new 8 300 0 1

def C6_eco : Ecosystem :=
  { Ecosystem.empty with sharks := [C6_shark], trout := [C6_trout7, C6_trout8],
                         next_entity_id := 10 }

/-- C7: a hungry pack leader with one ally in pack radius and a fish in
detection range. -/
def C7_leader : Animal := { Trout.new 11 0 0 1 with energy := 50 }

def C7_ally : Animal := Trout.new 12 50 0 1

def C7_fish : Animal := Fish.new 13 100 0 1

def C7_eco : Ecosystem :=
  { Ecosystem.empty with trout := [C7_leader, C7_ally], fish := [C7_fish],
                         next_entity_id := 14 }

def C8_trout : Animal := { Trout.new 21 0 0 1 with energy := 179 }

def C8_fish : Animal := Fish.new 22 0 0 1

def C10_fish : Animal := Fish.new 31 0 0 1

def C10_prey : Being := Being.animal (Fish.new 32 40 40 1)

/-! ## Helper lemmas -/

lemma dist2_nonneg (x1 y1 x2 y2 : ℚ) : 0 ≤ dist2 x1 y1 x2 y2 :=
  add_nonneg (sq_nonneg _) (sq_nonneg _)

/-- The rational test `distLe` is exactly the Euclidean comparison
`sqrt d2 ≤ r`. -/
lemma distLe_iff_sqrt (d2 r : ℚ) (h : 0 ≤ d2) :
    distLe d2 r = true ↔ Real.sqrt d2 ≤ (r : ℝ) := by
  unfold distLe
  simp only [Bool.and_eq_true, decide_eq_true_eq]
  constructor
  · rintro ⟨hr, hd⟩
    have hd2 : (d2 : ℝ) ≤ ((r : ℝ)) ^ 2 := by exact_mod_cast hd
    calc Real.sqrt d2 ≤ Real.sqrt ((r : ℝ) ^ 2) := Real.sqrt_le_sqrt hd2
      _ = (r : ℝ) := Real.sqrt_sq (by exact_mod_cast hr)
  · intro hs
    have hr : (0 : ℝ) ≤ (r : ℝ) := le_trans (Real.sqrt_nonneg _) hs
    refine ⟨by exact_mod_cast hr, ?_⟩
    have h2 : (d2 : ℝ) ≤ (r : ℝ) ^ 2 := by
      calc (d2 : ℝ) = Real.sqrt d2 ^ 2 :=
            (Real.sq_sqrt (by exact_mod_cast h)).symm
        _ ≤ (r : ℝ) ^ 2 := pow_le_pow_left₀ (Real.sqrt_nonneg _) hs 2
    exact_mod_cast h2

lemma distLe_mono {d2 r r2 : ℚ} (h : distLe d2 r = true) (hrr : r ≤ r2) :
    distLe d2 r2 = true := by
  unfold distLe at *
  simp only [Bool.and_eq_true, decide_eq_true_eq] at *
  exact ⟨le_trans h.1 hrr, le_trans h.2 (pow_le_pow_left₀ h.1 hrr 2)⟩

/-- Membership characterisation of the neighbor query. -/
lemma mem_get_nearby {α : Type} (cx cy : ℚ) (selfId : ℕ) (radius : ℚ)
    (l : List α) (pid : α → ℕ) (px py : α → ℚ) (o : α) :
    o ∈ get_nearby_entities cx cy selfId radius l pid px py ↔
      (o ∈ l ∧ pid o ≠ selfId ∧
       distLe (dist2 cx cy (px o) (py o)) radius = true) := by
  unfold get_nearby_entities
  rw [List.mem_insertionSort, List.mem_filter]
  simp only [Bool.and_eq_true, decide_eq_true_eq]

lemma sorted_get_nearby {α : Type} (cx cy : ℚ) (selfId : ℕ) (radius : ℚ)
    (l : List α) (pid : α → ℕ) (px py : α → ℚ) :
    List.Pairwise (distOrder cx cy px py)
      (get_nearby_entities cx cy selfId radius l pid px py) :=
  List.sorted_insertionSort _ _

/-! ## Claims -/

/-- Claim C10: for every animal `a` and entity `o` with `a.can_eat o = false`
(`o` is not of `a`'s prey species), `a.eat o` returns exactly `0.0` and
leaves both the eater's state (energy, state tag, target reference) and the
prey unchanged — a total, side-effect-free no-op for Fish, Trout and Shark
alike. -/
theorem C10_wrong_species_eat_noop (a : Animal) (o : Being)
    (h : a.can_eat o = false) : a.eat o = (0, a, o) := by
  unfold Animal.eat
  rw [h]
  simp

/-- Witness for C10: a fish "eating" another fish is a no-op. -/
theorem C10_witness :
    C10_fish.can_eat C10_prey = false ∧
    C10_fish.eat C10_prey = (0, C10_fish, C10_prey) :=
  ⟨by decide, C10_wrong_species_eat_noop C10_fish C10_prey (by decide)⟩

/-- Claim C8: when a trout eats a fish, the returned amount (which is also
the amount written into the `eat` event by the interaction pass) equals
`min 35 (prey.energy * 0.5)`, and the trout's stored energy becomes
`min max_energy (energy + amount)`, hence never exceeds `max_energy`. -/
theorem C8_trout_eat_formula (t f : Animal) (ht : t.species = .trout)
    (hf : f.species = .fish) :
    (t.eat (Being.animal f)).1 = min 35 (f.energy * 0.5) ∧
    (t.eat (Being.animal f)).2.1.energy
      = min t.max_energy (t.energy + min 35 (f.energy * 0.5)) ∧
    (t.eat (Being.animal f)).2.1.energy ≤ t.max_energy := by
  unfold Animal.eat Animal.can_eat
  rw [ht]
  simp [hf]

/-- Witness for C8: a nearly-full trout eats a 70-energy fish. -/
theorem C8_witness :
    (C8_trout.eat (Being.animal C8_fish)).1
      = min 35 (C8_fish.energy * 0.5) ∧
    (C8_trout.eat (Being.animal C8_fish)).2.1.energy ≤ C8_trout.max_energy :=
  ⟨(C8_trout_eat_formula C8_trout C8_fish (by decide) (by decide)).1,
   (C8_trout_eat_formula C8_trout C8_fish (by decide) (by decide)).2.2⟩

/-- Claim C1 (counterexample): `_balance_populations` does not trim the fish
population.  On an ecosystem holding 51 fish (above the configured maximum
50) the fish count is still 51 afterwards, refuting "after the balancing
pass every species count is within its [min, max] bounds". -/
theorem C1_counterexample :
    POPULATION_LIMITS_peces_max
        < ((C1_overfull.balance_populations ⟨[]⟩).1.fish.length) ∧
    ((C1_overfull.balance_populations ⟨[]⟩).1.fish.length) = 51 := by decide

/-- Claim C1 (amended): after `_balance_populations` the PLANT count is
within its configured bounds (trimmed down to the maximum when above it,
topped up to the minimum when below it), but the fish, trout and shark
collections are returned untouched — only plants are balanced. -/
theorem C1_balance_only_plants (e : Ecosystem) (rng : Rng) :
    (e.balance_populations rng).1.fish = e.fish ∧
    (e.balance_populations rng).1.trout = e.trout ∧
    (e.balance_populations rng).1.sharks = e.sharks ∧
    (e.balance_populations rng).1.plants.length
      = min e.plants.length POPULATION_LIMITS_plantas_max ∧
    POPULATION_LIMITS_plantas_min ≤ (e.balance_populations rng).1.plants.length := by
  unfold Ecosystem.balance_populations
  have h0 : ¬ e.plants.length < POPULATION_LIMITS_plantas_min := by
    simp [POPULATION_LIMITS_plantas_min]
  rw [if_neg h0]
  by_cases h : POPULATION_LIMITS_plantas_max < e.plants.length
  · rw [if_pos h]
    refine ⟨rfl, rfl, rfl, ?_, ?_⟩
    · simp only [List.length_take, POPULATION_LIMITS_plantas_max] at *
      omega
    · simp [POPULATION_LIMITS_plantas_min]
  · rw [if_neg h]
    refine ⟨rfl, rfl, rfl, ?_, ?_⟩
    · simp only [POPULATION_LIMITS_plantas_max] at *
      omega
    · simp [POPULATION_LIMITS_plantas_min]

/-- Claim C2 (counterexample): in `_update_animals` the offspring that is
actually added to the ecosystem is re-placed by `set_random_position` (here
to (5, 5)) and is NOT at the parent's position (150, 0); the parent keeps
its position and the birth event is at the parent's position. -/
theorem C2_counterexample :
    ((C2_eco.update_animals 1 ⟨[1, 0, 0, 1, 5, 5]⟩).1.fish.map
        (fun f => (f.eid, f.x, f.y)) = [(1, 150, 0), (2, 5, 5)]) ∧
    ((C2_eco.update_animals 1 ⟨[1, 0, 0, 1, 5, 5]⟩).1.events
        = [Event.birth 150 0 "pez"]) ∧
    ((5 : ℚ), (5 : ℚ)) ≠ ((150 : ℚ), (0 : ℚ)) := by with_unfolding_all decide

lemma assign_id_events (e : Ecosystem) (b : Animal) :
    (e.assign_id_animal b).2.events = e.events := by
  unfold Ecosystem.assign_id_animal
  split <;> rfl

/-- Claim C2 (amended): for every species, `reproduce()` itself deducts the
species-specific cost (fish 30 / trout 50 / shark 80) from the parent and
creates the offspring at the parent's position with the reduced starting
energy (fish 50 / trout 100 / shark 150), consuming the probability roll and
the offspring's speed draw from the stream; each species loop of
`_update_animals` emits the `birth` event at the parent's position — but it
assigns the offspring a fresh random position (`set_random_position`) before
adding it, so the offspring as added sits at the two random draws, not at
the parent's position. -/
theorem C2_reproduce_amended (a : Animal) (roll bs : ℚ) (rs : List ℚ)
    (hcan : (a.can_reproduce ⟨roll :: bs :: rs⟩).1 = true) :
    ((a.reproduce ⟨roll :: bs :: rs⟩).1.map
        (fun pr => (pr.1.energy, pr.1.x, pr.1.y, pr.2.x, pr.2.y, pr.2.energy)))
      = some (a.energy -
            (match a.species with
             | Species.fish => (30 : ℚ)
             | Species.trout => 50
             | Species.shark => 80), a.x, a.y, a.x, a.y,
            (match a.species with
             | Species.fish => (50 : ℚ)
             | Species.trout => 100
             | Species.shark => 150)) ∧
    (a.reproduce ⟨roll :: bs :: rs⟩).2 = ⟨rs⟩ ∧
    (∀ b r1 r2 rs2, ((Animal.set_random_position b ⟨r1 :: r2 :: rs2⟩).1.x,
        (Animal.set_random_position b ⟨r1 :: r2 :: rs2⟩).1.y) = (r1, r2)) ∧
    (∀ dt acc i a1 e1 rng1 rng2 parent baby rng3,
        acc.e.fish[i]? = some a →
        a.update dt acc.e acc.rng = (a1, e1, true, rng1) →
        a1.can_reproduce rng1 = (true, rng2) →
        a1.reproduce rng2 = (some (parent, baby), rng3) →
        (fishPhaseStep dt acc i).e.events
            = e1.events ++ [Event.birth parent.x parent.y "pez"] ∧
        (fishPhaseStep dt acc i).born.map (fun b2 => (b2.x, b2.y))
            = acc.born.map (fun b2 => (b2.x, b2.y))
                ++ [(rng3.next.1, rng3.next.2.next.1)]) ∧
    (∀ dt acc i a1 e1 rng1 rng2 parent baby rng3,
        acc.e.trout[i]? = some a →
        a.update dt acc.e acc.rng = (a1, e1, true, rng1) →
        a1.can_reproduce rng1 = (true, rng2) →
        a1.reproduce rng2 = (some (parent, baby), rng3) →
        (troutPhaseStep dt acc i).e.events
            = e1.events ++ [Event.birth parent.x parent.y "trucha"] ∧
        (troutPhaseStep dt acc i).born.map (fun b2 => (b2.x, b2.y))
            = acc.born.map (fun b2 => (b2.x, b2.y))
                ++ [(rng3.next.1, rng3.next.2.next.1)]) ∧
    (∀ dt acc i a1 e1 rng1 rng2 parent baby rng3,
        acc.e.sharks[i]? = some a →
        a.update dt acc.e acc.rng = (a1, e1, true, rng1) →
        a1.can_reproduce rng1 = (true, rng2) →
        a1.reproduce rng2 = (some (parent, baby), rng3) →
        (sharkPhaseStep dt acc i).e.events
            = e1.events ++ [Event.birth parent.x parent.y "tiburon"] ∧
        (sharkPhaseStep dt acc i).born.map (fun b2 => (b2.x, b2.y))
            = acc.born.map (fun b2 => (b2.x, b2.y))
                ++ [(rng3.next.1, rng3.next.2.next.1)]) := by
  have hcan2 : a.can_reproduce ⟨roll :: bs :: rs⟩ = (true, ⟨bs :: rs⟩) := by
    unfold Animal.can_reproduce at hcan ⊢
    cases hsp : a.species <;>
      (rw [hsp] at hcan
       dsimp only at hcan
       split at hcan <;> simp_all [Rng.next])
  have hrep : a.reproduce ⟨roll :: bs :: rs⟩
      = (some (
          { a with energy := a.energy -
              (match a.species with
               | Species.fish => (30 : ℚ)
               | Species.trout => 50
               | Species.shark => 80) },
          match a.species with
          | Species.fish => { Fish.new 0 a.x a.y bs with energy := 50 }
          | Species.trout => { Trout.new 0 a.x a.y bs with energy := 100 }
          | Species.shark => { Shark.new 0 a.x a.y bs with energy := 150 }),
         ⟨rs⟩) := by
    unfold Animal.reproduce
    rw [hcan2]
    cases hsp : a.species <;> simp [Rng.next]
  refine ⟨?_, ?_, ?_, ?_, ?_, ?_⟩
  · rw [hrep]
    cases a.species <;> rfl
  · rw [hrep]
  · intro b r1 r2 rs2
    rfl
  · intro dt acc i a1 e1 rng1 rng2 parent baby rng3 h1 h2 h3 h4
    unfold fishPhaseStep
    rw [h1]
    dsimp only
    rw [h2]
    dsimp only
    rw [if_pos rfl, h3]
    dsimp only
    rw [if_pos rfl, h4]
    dsimp only
    constructor
    · rw [assign_id_events]
    · simp [Animal.set_random_position]
  · intro dt acc i a1 e1 rng1 rng2 parent baby rng3 h1 h2 h3 h4
    unfold troutPhaseStep
    rw [h1]
    dsimp only
    rw [h2]
    dsimp only
    rw [if_pos rfl, h3]
    dsimp only
    rw [if_pos rfl, h4]
    dsimp only
    constructor
    · rw [assign_id_events]
    · simp [Animal.set_random_position]
  · intro dt acc i a1 e1 rng1 rng2 parent baby rng3 h1 h2 h3 h4
    unfold sharkPhaseStep
    rw [h1]
    dsimp only
    rw [h2]
    dsimp only
    rw [if_pos rfl, h3]
    dsimp only
    rw [if_pos rfl, h4]
    dsimp only
    constructor
    · rw [assign_id_events]
    · simp [Animal.set_random_position]

/-- Witness for C2 (amended) at the concrete reproducing trout
`C2_troutParent` (cost 50, offspring energy 100, random reposition). -/
theorem C2_witness :
    ((C2_troutParent.reproduce ⟨[0, 1]⟩).1.map
        (fun pr => (pr.1.energy, pr.1.x, pr.1.y, pr.2.x, pr.2.y, pr.2.energy)))
      = some (C2_troutParent.energy -
            (match C2_troutParent.species with
             | Species.fish => (30 : ℚ)
             | Species.trout => 50
             | Species.shark => 80),
            C2_troutParent.x, C2_troutParent.y, C2_troutParent.x,
            C2_troutParent.y,
            (match C2_troutParent.species with
             | Species.fish => (50 : ℚ)
             | Species.trout => 100
             | Species.shark => 150)) ∧
    ((Animal.set_random_position (Trout.new 0 80 60 1) ⟨[5, 6]⟩).1.x,
     (Animal.set_random_position (Trout.new 0 80 60 1) ⟨[5, 6]⟩).1.y)
      = (5, 6) :=
  ⟨(C2_reproduce_amended C2_troutParent 0 1 []
      (by with_unfolding_all decide)).1,
   (C2_reproduce_amended C2_troutParent 0 1 []
      (by with_unfolding_all decide)).2.2.1 (Trout.new 0 80 60 1) 5 6 []⟩

/-- Claim C3 (counterexample): with fish 1 travelling and arriving at
(250, 0) before the trout decides, the trout's sequential decision hunts
fish 1 (now the nearest), while the decision against a snapshot of the
start-of-turn collections hunts fish 2 — so decisions are NOT computed
against a start-of-turn snapshot: a later animal observes an earlier
animal's already-updated-this-turn position. -/
theorem C3_counterexample :
    ((C3_eco.update_animals 1 ⟨[]⟩).1.trout.map
        (fun t => (t.state, t.targetId)) = [(AState.hunting, some 1)]) ∧
    ((snapshotDecision C3_eco C3_troutT 1 ⟨[]⟩).state,
     (snapshotDecision C3_eco C3_troutT 1 ⟨[]⟩).targetId)
      = (AState.hunting, some 2) ∧
    (some 1 : Option ℕ) ≠ some 2 := by with_unfolding_all decide

/-- Claim C9: the neighbor query returns exactly the entities other than the
querying one whose Euclidean distance from it is at most the radius
(inclusive), in ascending order of that distance; the querying entity itself
is never in the result. -/
theorem C9_neighbor_query {α : Type} (cx cy : ℚ) (selfId : ℕ) (radius : ℚ)
    (l : List α) (pid : α → ℕ) (px py : α → ℚ) :
    (∀ o, o ∈ get_nearby_entities cx cy selfId radius l pid px py ↔
       (o ∈ l ∧ pid o ≠ selfId ∧
         Real.sqrt (dist2 cx cy (px o) (py o)) ≤ (radius : ℝ))) ∧
    List.Pairwise (distOrder cx cy px py)
      (get_nearby_entities cx cy selfId radius l pid px py) ∧
    (∀ o ∈ get_nearby_entities cx cy selfId radius l pid px py, pid o ≠ selfId) := by
  refine ⟨?_, sorted_get_nearby cx cy selfId radius l pid px py, ?_⟩
  · intro o
    rw [mem_get_nearby, distLe_iff_sqrt _ _ (dist2_nonneg _ _ _ _)]
  · intro o ho
    exact ((mem_get_nearby cx cy selfId radius l pid px py o).1 ho).2.1

/-- Claim C6: a shark locked onto a still-live trout keeps it as its pursuit
target (without re-scanning) whenever the distance is at most the
persistence distance 480; beyond it, the lock is dropped and the shark
re-acquires the nearest trout within its current hunt radius — never the old
target, which lies outside every hunt radius. -/
theorem C6_shark_persistence (a t : Animal) (e : Ecosystem) (rng : Rng)
    (hlock : a.targetId = some t.eid)
    (hmem : e.trout.find? (fun x => x.eid == t.eid) = some t) :
    (distLe (dist2 a.x a.y t.x t.y) SHARK_TARGET_PERSISTENCE = true →
       (Shark.decide_action a e rng).1.targetId = some t.eid ∧
       (Shark.decide_action a e rng).1.state = AState.hunting) ∧
    (distLe (dist2 a.x a.y t.x t.y) SHARK_TARGET_PERSISTENCE = false →
       ∀ t2 rest2,
         e.get_nearby_trout a (if a.energy / a.max_energy < SHARK_HUNGER_THRESHOLD
             then SHARK_HUNT_RADIUS_HUNGRY else SHARK_HUNT_RADIUS_RELAXED)
           = t2 :: rest2 →
         (Shark.decide_action a e rng).1.targetId = some t2.eid ∧
         (Shark.decide_action a e rng).1.state = AState.hunting ∧ t2 ≠ t) := by
  unfold Shark.decide_action
  rw [hlock]
  simp only [Option.some_bind, hmem]
  constructor
  · intro hle
    rw [if_pos hle]
    exact ⟨hlock, rfl⟩
  · intro hgt t2 rest2 hres
    rw [if_neg (by simp [hgt])]
    rw [hres]
    refine ⟨rfl, rfl, ?_⟩
    intro hEq
    subst hEq
    have ht2 : t2 ∈ e.get_nearby_trout a
        (if a.energy / a.max_energy < SHARK_HUNGER_THRESHOLD
          then SHARK_HUNT_RADIUS_HUNGRY else SHARK_HUNT_RADIUS_RELAXED) := by
      rw [hres]; exact List.mem_cons_self _ _
    rw [Ecosystem.get_nearby_trout, mem_get_nearby] at ht2
    have hle480 : distLe (dist2 a.x a.y t2.x t2.y) SHARK_TARGET_PERSISTENCE = true := by
      refine distLe_mono ht2.2.2 ?_
      by_cases hf : a.energy / a.max_energy < SHARK_HUNGER_THRESHOLD
      · rw [if_pos hf]
        unfold SHARK_HUNT_RADIUS_HUNGRY SHARK_TARGET_PERSISTENCE
        norm_num
      · rw [if_neg hf]
        unfold SHARK_HUNT_RADIUS_RELAXED SHARK_TARGET_PERSISTENCE
        norm_num
    simp [hle480] at hgt

set_option maxRecDepth 4000 in
/-- Witness for C6 at the concrete shark of `C6_eco` (locked target at
distance 500 > 480, re-acquired trout at distance 300 within the hungry hunt
radius 400). -/
theorem C6_witness :
    (Shark.decide_action C6_shark C6_eco ⟨[]⟩).1.targetId = some C6_trout8.eid ∧
    (Shark.decide_action C6_shark C6_eco ⟨[]⟩).1.state = AState.hunting ∧
    C6_trout8 ≠ C6_trout7 :=
  (C6_shark_persistence C6_shark C6_trout7 C6_eco ⟨[]⟩
      (by with_unfolding_all decide) (by with_unfolding_all decide)).2
    (by with_unfolding_all decide) C6_trout8 []
    (by with_unfolding_all decide)

lemma get_nearby_trout_congr (e : Ecosystem) (b c : Animal) (r : ℚ)
    (hx : b.x = c.x) (hy : b.y = c.y) (hid : b.eid = c.eid) :
    e.get_nearby_trout b r = e.get_nearby_trout c r := by
  unfold Ecosystem.get_nearby_trout
  rw [hx, hy, hid]

/-- The trout target selection only reads position-independent fields, so a
speed adjustment does not change the selected target. -/
lemma select_target_speed_fst (a : Animal) (s : ℚ) (e : Ecosystem) :
    (Trout.select_target { a with speed := s } e).1
      = (Trout.select_target a e).1 := by
  unfold Trout.select_target
  dsimp only
  split
  · split <;> rfl
  · rfl

/-- When `select_target` yields a target, the trout's `target_entity`
reference points at it, and the trout's identity fields are untouched. -/
lemma select_target_spec (a tgt : Animal) (e : Ecosystem)
    (h : (Trout.select_target a e).1 = some tgt) :
    (Trout.select_target a e).2.targetId = some tgt.eid ∧
    (Trout.select_target a e).2.x = a.x ∧
    (Trout.select_target a e).2.y = a.y ∧
    (Trout.select_target a e).2.eid = a.eid := by
  rcases hsel : Trout.select_target a e with ⟨fst, snd⟩
  rw [hsel] at h
  dsimp only at h ⊢
  subst h
  unfold Trout.select_target at hsel
  dsimp only at hsel
  split at hsel
  · split at hsel
    · rename_i f heq
      injection hsel with hA hB
      obtain ⟨fid, hfid, hfind⟩ := Option.bind_eq_some.mp heq
      have hpf := List.find?_some hfind
      have hfe : f.eid = fid := by simpa using hpf
      cases hA
      subst hB
      refine ⟨?_, rfl, rfl, rfl⟩
      rw [hfid, hfe]
    · injection hsel with hA hB
      subst hB
      refine ⟨?_, rfl, rfl, rfl⟩
      dsimp only
      rw [hA]
      rfl
  · injection hsel with hA hB
    exact absurd hA.symm (by simp)

lemma form_pack_ids (e : Ecosystem) (b c : Animal) (r : ℚ) (m : ℕ)
    (hx : b.x = c.x) (hy : b.y = c.y) (hid : b.eid = c.eid) :
    (e.form_trout_pack b r m).map Animal.eid
      = (e.form_trout_pack c r m).map Animal.eid := by
  unfold Ecosystem.form_trout_pack
  rw [get_nearby_trout_congr e b c r hx hy hid]
  simp [hid]

lemma form_pack_length (e : Ecosystem) (b : Animal) (r : ℚ) :
    (e.form_trout_pack b r TROUT_MAX_PACK_SIZE).length ≤ TROUT_MAX_PACK_SIZE := by
  unfold Ecosystem.form_trout_pack TROUT_MAX_PACK_SIZE
  simp [List.length_take]

lemma form_pack_leader_mem (e : Ecosystem) (b : Animal) (r : ℚ) (m : ℕ) :
    b.eid ∈ (e.form_trout_pack b r m).map Animal.eid := by
  unfold Ecosystem.form_trout_pack
  simp

/-- The hunting branch of `Trout.decide_rest` with a formed pack: the
returned trout is the pack-assigned leader and every pack member inside the
ecosystem's trout list is re-targeted at the shared prey. -/
lemma decide_rest_pack (a0 tgt : Animal) (e : Ecosystem) (rng : Rng)
    (hhungry : a0.energy < a0.max_energy * 0.45)
    (hsel : (Trout.select_target a0 e).1 = some tgt)
    (hallies : TROUT_MIN_ALLIES_FOR_PACK
        ≤ (e.get_nearby_trout a0 TROUT_PACK_RADIUS).length) :
    Trout.decide_rest a0 e rng
      = (Trout.hunt_assign tgt (Trout.select_target a0 e).2,
         { e with trout := e.trout.map (fun m =>
             if ((e.form_trout_pack (Trout.select_target a0 e).2 TROUT_PACK_RADIUS
                   TROUT_MAX_PACK_SIZE).map Animal.eid).contains m.eid
             then Trout.hunt_assign tgt m else m) }, rng) := by
  obtain ⟨hti, hx, hy, hid⟩ := select_target_spec a0 tgt e hsel
  have hcong : e.get_nearby_trout (Trout.select_target a0 e).2 TROUT_PACK_RADIUS
      = e.get_nearby_trout a0 TROUT_PACK_RADIUS :=
    get_nearby_trout_congr e _ a0 _ hx hy hid
  unfold Trout.decide_rest
  dsimp only
  rw [decide_eq_true hhungry, hsel]
  dsimp only
  rw [hcong]
  rw [if_pos hallies]

/-- Claim C7: a hungry trout with a live fish target and at least
`TROUT_MIN_ALLIES_FOR_PACK` allies within the pack radius forms a pack of at
most `TROUT_MAX_PACK_SIZE` members including itself, and every pack member's
target reference, target position and state are set to the leader's prey; in
particular the deciding trout itself ends the decision locked onto that
fish. -/
theorem C7_pack_converges (a tgt : Animal) (e : Ecosystem) (rng : Rng)
    (hsharks : e.get_nearby_sharks a TROUT_ESCAPE_RADAR = [])
    (hhungry : a.energy < a.max_energy * 0.45)
    (hsel : (Trout.select_target a e).1 = some tgt)
    (hallies : TROUT_MIN_ALLIES_FOR_PACK
        ≤ (e.get_nearby_trout a TROUT_PACK_RADIUS).length) :
    ((Trout.decide_action a e rng).1.targetId = some tgt.eid ∧
     (Trout.decide_action a e rng).1.target_x = tgt.x ∧
     (Trout.decide_action a e rng).1.target_y = tgt.y ∧
     (Trout.decide_action a e rng).1.state = AState.hunting) ∧
    ((e.form_trout_pack a TROUT_PACK_RADIUS TROUT_MAX_PACK_SIZE).length
        ≤ TROUT_MAX_PACK_SIZE) ∧
    (a.eid ∈ (e.form_trout_pack a TROUT_PACK_RADIUS TROUT_MAX_PACK_SIZE).map
        Animal.eid) ∧
    (∀ m ∈ (Trout.decide_action a e rng).2.1.trout,
      m.eid ∈ (e.form_trout_pack a TROUT_PACK_RADIUS TROUT_MAX_PACK_SIZE).map
          Animal.eid →
      (m.targetId = some tgt.eid ∧ m.target_x = tgt.x ∧ m.target_y = tgt.y ∧
       m.state = AState.hunting)) := by
  have hda : Trout.decide_action a e rng
      = Trout.decide_rest { a with speed := a.base_speed * a.season_move_mult }
          e rng := by
    unfold Trout.decide_action
    rw [hsharks]
  have hsel2 : (Trout.select_target
      { a with speed := a.base_speed * a.season_move_mult } e).1 = some tgt := by
    rw [select_target_speed_fst]; exact hsel
  obtain ⟨hti, hx, hy, hid⟩ := select_target_spec _ tgt e hsel2
  have hrest := decide_rest_pack
    { a with speed := a.base_speed * a.season_move_mult } tgt e rng
    hhungry hsel2 hallies
  have hpids : (e.form_trout_pack (Trout.select_target
        { a with speed := a.base_speed * a.season_move_mult } e).2
        TROUT_PACK_RADIUS TROUT_MAX_PACK_SIZE).map Animal.eid
      = (e.form_trout_pack a TROUT_PACK_RADIUS TROUT_MAX_PACK_SIZE).map
          Animal.eid :=
    form_pack_ids e _ a _ _ hx hy hid
  rw [hda, hrest]
  refine ⟨⟨rfl, rfl, rfl, rfl⟩, form_pack_length e a _, form_pack_leader_mem e a _ _, ?_⟩
  intro m hm hmid
  dsimp only at hm
  rw [List.mem_map] at hm
  obtain ⟨m0, hm0, hmEq⟩ := hm
  rw [hpids] at hmEq
  by_cases hc : ((e.form_trout_pack a TROUT_PACK_RADIUS TROUT_MAX_PACK_SIZE).map
      Animal.eid).contains m0.eid
  · rw [if_pos hc] at hmEq
    subst hmEq
    exact ⟨rfl, rfl, rfl, rfl⟩
  · rw [if_neg hc] at hmEq
    subst hmEq
    simp only [List.contains, List.elem_eq_mem, decide_eq_true_eq] at hc
    exact absurd hmid hc

/-- Witness for C7 at the concrete two-trout pack of `C7_eco`. -/
theorem C7_witness :
    (Trout.decide_action C7_leader C7_eco ⟨[]⟩).1.targetId = some C7_fish.eid ∧
    (Trout.decide_action C7_leader C7_eco ⟨[]⟩).1.state = AState.hunting ∧
    ∀ m ∈ (Trout.decide_action C7_leader C7_eco ⟨[]⟩).2.1.trout,
      m.eid ∈ (C7_eco.form_trout_pack C7_leader TROUT_PACK_RADIUS
          TROUT_MAX_PACK_SIZE).map Animal.eid →
      m.targetId = some C7_fish.eid := by
  have h := C7_pack_converges C7_leader C7_fish C7_eco ⟨[]⟩
    (by with_unfolding_all decide) (by with_unfolding_all decide)
    (by with_unfolding_all decide) (by with_unfolding_all decide)
  exact ⟨h.1.1, h.1.2.2.2, fun m hm hmid => (h.2.2.2 m hm hmid).1⟩

/-- Movement never changes the decision outcome (state tag and target
reference). -/
lemma move_towards_target_core (a : Animal) (s : ℚ) :
    ((a.move_towards_target s).1.state, (a.move_towards_target s).1.targetId)
      = (a.state, a.targetId) := by
  unfold Animal.move_towards_target Animal.clamp_to_bounds
  dsimp only
  split
  · split <;> rfl
  · split <;> split <;> rfl

lemma decide_rest_keeps_fish (a : Animal) (e : Ecosystem) (rng : Rng) :
    (Trout.decide_rest a e rng).2.1.fish = e.fish := by
  unfold Trout.decide_rest
  dsimp only
  repeat' split
  all_goals rfl

lemma trout_decide_keeps_fish (a : Animal) (e : Ecosystem) (rng : Rng) :
    (Trout.decide_action a e rng).2.1.fish = e.fish := by
  unfold Trout.decide_action
  dsimp only
  repeat' split
  all_goals first | rfl | exact decide_rest_keeps_fish _ _ _

lemma update_keeps_fish (a : Animal) (dt : ℚ) (e : Ecosystem) (rng : Rng) :
    (a.update dt e rng).2.1.fish = e.fish := by
  unfold Animal.update
  dsimp only
  repeat' split
  all_goals first | rfl | exact trout_decide_keeps_fish _ _ _

lemma assign_id_keeps_fish (e : Ecosystem) (b : Animal) :
    (e.assign_id_animal b).2.fish = e.fish := by
  unfold Ecosystem.assign_id_animal
  split <;> rfl

/-- Reproduction only deducts energy from the parent: its decision outcome
is untouched. -/
lemma reproduce_core (a p b : Animal) (rng rng2 : Rng)
    (h : a.reproduce rng = (some (p, b), rng2)) :
    p.state = a.state ∧ p.targetId = a.targetId := by
  unfold Animal.reproduce at h
  dsimp only at h
  split at h
  · split at h <;>
      (injection h with h1 h2
       injection h1 with h3
       injection h3 with hp hb
       subst hp
       exact ⟨rfl, rfl⟩)
  · injection h with h1 h2
    exact absurd h1 (by simp)

/-- When the animal survives, the state and target computed by
`Animal.update` against ecosystem `e` are exactly those of the snapshot
decision against `e` (movement does not alter them). -/
lemma update_decision_core (a : Animal) (dt : ℚ) (e : Ecosystem) (rng : Rng)
    (halive : (a.update dt e rng).2.2.1 = true) :
    ((a.update dt e rng).1.state, (a.update dt e rng).1.targetId)
      = ((snapshotDecision e a dt rng).state,
         (snapshotDecision e a dt rng).targetId) := by
  unfold Animal.update snapshotDecision at *
  dsimp only at halive ⊢
  split at halive
  · simp at halive
  · rename_i hdead
    rw [if_neg hdead]
    repeat' split
    all_goals first | rfl | exact move_towards_target_core _ _

/-- Claim C3 (amended): `_update_animals` processes animals strictly
sequentially and in place, so a later animal's decision can observe an
earlier animal's already-updated-this-turn position and state (see the
counterexample); the snapshot guarantee only holds degenerately for the
first animal processed, whose decision (state and target) coincides with
the snapshot decision against the start-of-turn ecosystem. -/
theorem C3_sequential_amended (e : Ecosystem) (dt : ℚ) (rng : Rng)
    (a : Animal) (rest : List Animal) (hf : e.fish = a :: rest)
    (halive : (a.update dt e rng).2.2.1 = true) :
    ((fishPhaseStep dt ⟨e, rng, [], []⟩ 0).e.fish.head?.map
        (fun b => (b.state, b.targetId)))
      = some ((snapshotDecision e a dt rng).state,
              (snapshotDecision e a dt rng).targetId) := by
  have hcore := update_decision_core a dt e rng halive
  have hkeep := update_keeps_fish a dt e rng
  unfold fishPhaseStep
  dsimp only
  have h0 : e.fish[0]? = some a := by rw [hf]; simp
  rw [h0]
  dsimp only
  rcases hu : a.update dt e rng with ⟨a1, e1, alive, rng1⟩
  rw [hu] at halive hcore hkeep
  dsimp only at halive hcore hkeep
  subst halive
  dsimp only
  rw [if_pos rfl, hkeep, hf]
  rcases hcr : a1.can_reproduce rng1 with ⟨ok, rng2⟩
  dsimp only
  by_cases hok : ok = true
  · subst hok
    rw [if_pos rfl]
    rcases hrep : a1.reproduce rng2 with ⟨orep, rng3⟩
    cases orep with
    | none =>
      dsimp only
      rw [← hcore]
      simp [List.set]
    | some pb =>
      rcases pb with ⟨parent, baby0⟩
      dsimp only
      rw [assign_id_keeps_fish]
      dsimp only [List.set]
      obtain ⟨hps, hpt⟩ := reproduce_core a1 parent baby0 rng2 rng3 hrep
      simp only [List.head?, Option.map]
      rw [← hcore, hps, hpt]
  · rw [if_neg hok]
    dsimp only
    rw [← hcore]
    simp [List.set]

set_option maxRecDepth 4000 in
/-- Witness for the C3 amended claim: the first fish of `C3_eco` decides
exactly as the snapshot decision prescribes. -/
theorem C3_witness :
    ((fishPhaseStep 1 ⟨C3_eco, ⟨[]⟩, [], []⟩ 0).e.fish.head?.map
        (fun b => (b.state, b.targetId)))
      = some ((snapshotDecision C3_eco C3_fishA 1 ⟨[]⟩).state,
              (snapshotDecision C3_eco C3_fishA 1 ⟨[]⟩).targetId) :=
  C3_sequential_amended C3_eco 1 ⟨[]⟩ C3_fishA [C3_fishB]
    (by with_unfolding_all decide) (by with_unfolding_all decide)

lemma eat_pred_eid (a : Animal) (o : Being) : ((a.eat o).2.1).eid = a.eid := by
  unfold Animal.eat
  repeat' split
  all_goals rfl

lemma eat_plant_prey (a : Animal) (p : Plant) :
    (a.eat (Being.plant p)).2.2 = Being.plant p ∨
    (a.eat (Being.plant p)).2.2 = Being.plant { p with growth := 0 } := by
  unfold Animal.eat Plant.consume
  repeat' split
  all_goals first | exact Or.inl rfl | exact Or.inr rfl | simp_all

lemma eat_animal_prey (a q : Animal) :
    (a.eat (Being.animal q)).2.2 = Being.animal q := by
  unfold Animal.eat
  repeat' split
  all_goals first | rfl | simp_all

lemma eatPlant_prey_eid (a : Animal) (p : Plant) :
    ((a.eatPlant p).2.2).eid = p.eid := by
  unfold Animal.eatPlant
  rcases h : a.eat (Being.plant p) with ⟨en, a1, o⟩
  have hsh := eat_plant_prey a p
  rw [h] at hsh
  dsimp only at hsh
  rcases hsh with ho | ho
  · subst ho; rfl
  · subst ho; rfl

lemma eatAnimal_prey_eid (a q : Animal) :
    ((a.eatAnimal q).2.2).eid = q.eid := by
  unfold Animal.eatAnimal
  rcases h : a.eat (Being.animal q) with ⟨en, a1, o⟩
  have hsh := eat_animal_prey a q
  rw [h] at hsh
  dsimp only at hsh
  subst hsh
  rfl

lemma eatPlant_pred_eid (a : Animal) (p : Plant) :
    ((a.eatPlant p).2.1).eid = a.eid := by
  unfold Animal.eatPlant
  rcases h : a.eat (Being.plant p) with ⟨en, a1, o⟩
  have hp := eat_pred_eid a (Being.plant p)
  rw [h] at hp
  dsimp only at hp
  cases o <;> exact hp

lemma eatAnimal_pred_eid (a q : Animal) :
    ((a.eatAnimal q).2.1).eid = a.eid := by
  unfold Animal.eatAnimal
  rcases h : a.eat (Being.animal q) with ⟨en, a1, o⟩
  have hp := eat_pred_eid a (Being.animal q)
  rw [h] at hp
  dsimp only at hp
  cases o <;> exact hp

/-- One predator scan eats at most one prey: it either leaves the prey ids
untouched with no event, or it emits exactly one event whose prey id is
removed from the prey list. -/
lemma scanFirstPrey_spec {α : Type} (eatF : Animal → α → ℚ × Animal × α)
    (rectF : α → PyRect) (evF : Animal → ℚ → Event) (eidF : α → ℕ)
    (heid : ∀ p q, eidF (eatF p q).2.2 = eidF q)
    (pred : Animal) (qs : List α) (hnd : (qs.map eidF).Nodup) :
    ((scanFirstPrey eatF rectF evF eidF pred qs).2.2 = [] ∧
     (scanFirstPrey eatF rectF evF eidF pred qs).2.1.map eidF = qs.map eidF) ∨
    (∃ ev pid, (scanFirstPrey eatF rectF evF eidF pred qs).2.2 = [(ev, pid)] ∧
       pid ∈ qs.map eidF ∧
       (scanFirstPrey eatF rectF evF eidF pred qs).2.1.map eidF
         = (qs.map eidF).erase pid) := by
  induction qs generalizing pred with
  | nil => exact Or.inl ⟨rfl, rfl⟩
  | cons q qs ih =>
    have hndq : (qs.map eidF).Nodup := (List.nodup_cons.mp hnd).2
    have hqnot : eidF q ∉ qs.map eidF := (List.nodup_cons.mp hnd).1
    unfold scanFirstPrey
    dsimp only
    split
    · split
      · right
        exact ⟨_, eidF q, rfl, by simp, by simp [List.erase_cons_head]⟩
      · rcases ih (eatF pred q).2.1 hndq with ⟨hev, hids⟩ | ⟨ev, pid, hev, hpid, hids⟩
        · left
          refine ⟨hev, ?_⟩
          simp only [List.map_cons, hids, heid]
        · right
          refine ⟨ev, pid, hev, by simp [hpid], ?_⟩
          have hne : eidF q ≠ pid := fun hEq => hqnot (hEq ▸ hpid)
          simp only [List.map_cons, hids, heid]
          rw [List.erase_cons_tail]
          simp [hne]
    · rcases ih pred hndq with ⟨hev, hids⟩ | ⟨ev, pid, hev, hpid, hids⟩
      · left
        refine ⟨hev, ?_⟩
        simp only [List.map_cons, hids]
      · right
        refine ⟨ev, pid, hev, by simp [hpid], ?_⟩
        have hne : eidF q ≠ pid := fun hEq => hqnot (hEq ▸ hpid)
        simp only [List.map_cons, hids]
        rw [List.erase_cons_tail]
        simp [hne]

lemma scanFirstPrey_pred_eid {α : Type} (eatF : Animal → α → ℚ × Animal × α)
    (rectF : α → PyRect) (evF : Animal → ℚ → Event) (eidF : α → ℕ)
    (hpe : ∀ p q, (eatF p q).2.1.eid = p.eid)
    (pred : Animal) (qs : List α) :
    (scanFirstPrey eatF rectF evF eidF pred qs).1.eid = pred.eid := by
  induction qs generalizing pred with
  | nil => rfl
  | cons q qs ih =>
    unfold scanFirstPrey
    dsimp only
    split
    · split
      · exact hpe pred q
      · rw [ih]
        exact hpe pred q
    · exact ih pred

lemma passPreyAll_pred_ids {α : Type} (eatF : Animal → α → ℚ × Animal × α)
    (rectF : α → PyRect) (evF : Animal → ℚ → Event) (eidF : α → ℕ)
    (hpe : ∀ p q, (eatF p q).2.1.eid = p.eid)
    (preds : List Animal) (qs : List α) :
    (passPreyAll eatF rectF evF eidF preds qs).1.map Animal.eid
      = preds.map Animal.eid := by
  induction preds generalizing qs with
  | nil => rfl
  | cons p ps ih =>
    unfold passPreyAll
    dsimp only
    rw [List.map_cons, List.map_cons,
      scanFirstPrey_pred_eid eatF rectF evF eidF hpe, ih]

/-- A full predator pass: the emitted eat events name pairwise distinct prey
(each prey is consumed at most once), every consumed prey was in the prey
list, the surviving prey ids stay duplicate-free, and no consumed prey
survives. -/
lemma passPreyAll_spec {α : Type} (eatF : Animal → α → ℚ × Animal × α)
    (rectF : α → PyRect) (evF : Animal → ℚ → Event) (eidF : α → ℕ)
    (heid : ∀ p q, eidF (eatF p q).2.2 = eidF q)
    (preds : List Animal) (qs : List α) (hnd : (qs.map eidF).Nodup) :
    ((passPreyAll eatF rectF evF eidF preds qs).2.2.map Prod.snd).Nodup ∧
    (∀ i ∈ (passPreyAll eatF rectF evF eidF preds qs).2.2.map Prod.snd,
       i ∈ qs.map eidF) ∧
    ((passPreyAll eatF rectF evF eidF preds qs).2.1.map eidF).Nodup ∧
    (∀ i ∈ (passPreyAll eatF rectF evF eidF preds qs).2.1.map eidF,
       i ∈ qs.map eidF) ∧
    (∀ i ∈ (passPreyAll eatF rectF evF eidF preds qs).2.2.map Prod.snd,
       i ∉ (passPreyAll eatF rectF evF eidF preds qs).2.1.map eidF) := by
  induction preds generalizing qs with
  | nil =>
    unfold passPreyAll
    exact ⟨List.nodup_nil, by simp, hnd, fun i hi => hi, by simp⟩
  | cons p ps ih =>
    unfold passPreyAll
    dsimp only
    rcases scanFirstPrey_spec eatF rectF evF eidF heid p qs hnd with
      ⟨hev, hids⟩ | ⟨ev, pid, hev, hpid, hids⟩
    · have hnd1 : ((scanFirstPrey eatF rectF evF eidF p qs).2.1.map eidF).Nodup := by
        rw [hids]; exact hnd
      obtain ⟨r1, r2, r3, r4, r5⟩ := ih (scanFirstPrey eatF rectF evF eidF p qs).2.1 hnd1
      rw [hev]
      refine ⟨by simpa using r1, ?_, r3, ?_, ?_⟩
      · intro i hi
        simp only [List.nil_append] at hi
        exact hids ▸ r2 i hi
      · intro i hi
        exact hids ▸ r4 i hi
      · intro i hi
        simp only [List.nil_append] at hi
        exact r5 i hi
    · have hnd1 : ((scanFirstPrey eatF rectF evF eidF p qs).2.1.map eidF).Nodup := by
        rw [hids]; exact hnd.erase pid
      obtain ⟨r1, r2, r3, r4, r5⟩ := ih (scanFirstPrey eatF rectF evF eidF p qs).2.1 hnd1
      rw [hev]
      have hsub : ∀ i, i ∈ (scanFirstPrey eatF rectF evF eidF p qs).2.1.map eidF →
          i ∈ qs.map eidF := by
        intro i hi
        rw [hids] at hi
        exact List.mem_of_mem_erase hi
      have hpidrem : pid ∉ (scanFirstPrey eatF rectF evF eidF p qs).2.1.map eidF := by
        rw [hids]
        exact hnd.not_mem_erase
      refine ⟨?_, ?_, r3, ?_, ?_⟩
      · simp only [List.map_append, List.map_cons, List.map_nil, List.cons_append,
          List.nil_append, List.nodup_cons]
        exact ⟨fun hmem => hpidrem (r2 pid hmem), r1⟩
      · intro i hi
        simp only [List.map_append, List.map_cons, List.map_nil, List.cons_append,
          List.nil_append, List.mem_cons] at hi
        rcases hi with hEq | hi
        · exact hEq ▸ hpid
        · exact hsub i (r2 i hi)
      · intro i hi
        exact hsub i (r4 i hi)
      · intro i hi
        simp only [List.map_append, List.map_cons, List.map_nil, List.cons_append,
          List.nil_append, List.mem_cons] at hi
        rcases hi with hEq | hi
        · intro hmem
          exact hpidrem (hEq ▸ (r4 i hmem))
        · exact r5 i hi

/-- Claim C5: within one `_process_interactions` turn, every prey entity is
consumed at most once — the interaction passes run in fixed trophic order
(fish-vs-plant, then trout-vs-fish, then shark-vs-trout) and the prey ids
named by the turn's eat events are pairwise distinct; moreover every
consumed prey was a live member of its collection at the start of the
passes. -/
theorem C5_no_double_consumption (e : Ecosystem)
    (h : ((e.plants.map Plant.eid) ++ (e.fish.map Animal.eid)
        ++ (e.trout.map Animal.eid)).Nodup) :
    ((e.process_interactions).2.map Prod.snd).Nodup ∧
    (∀ i ∈ (e.process_interactions).2.map Prod.snd,
       i ∈ (e.plants.map Plant.eid) ++ (e.fish.map Animal.eid)
           ++ (e.trout.map Animal.eid)) := by
  rw [List.nodup_append] at h
  obtain ⟨hPF, hT, hdisjPFT⟩ := h
  rw [List.nodup_append] at hPF
  obtain ⟨hP, hF, hdisjPF⟩ := hPF
  have spec1 := passPreyAll_spec Animal.eatPlant Plant.rect
    (fun a en => Event.eat a.x a.y en "pez") Plant.eid eatPlant_prey_eid
    e.fish e.plants hP
  have predids1 := passPreyAll_pred_ids Animal.eatPlant Plant.rect
    (fun a en => Event.eat a.x a.y en "pez") Plant.eid eatPlant_pred_eid
    e.fish e.plants
  have hndF1 : ((passPreyAll Animal.eatPlant Plant.rect
      (fun a en => Event.eat a.x a.y en "pez") Plant.eid
      e.fish e.plants).1.map Animal.eid).Nodup := by
    rw [predids1]; exact hF
  have spec2 := passPreyAll_spec Animal.eatAnimal Animal.rect
    (fun a en => Event.eat a.x a.y en "trucha") Animal.eid eatAnimal_prey_eid
    e.trout
    (passPreyAll Animal.eatPlant Plant.rect
      (fun a en => Event.eat a.x a.y en "pez") Plant.eid e.fish e.plants).1
    hndF1
  have predids2 := passPreyAll_pred_ids Animal.eatAnimal Animal.rect
    (fun a en => Event.eat a.x a.y en "trucha") Animal.eid eatAnimal_pred_eid
    e.trout
    (passPreyAll Animal.eatPlant Plant.rect
      (fun a en => Event.eat a.x a.y en "pez") Plant.eid e.fish e.plants).1
  have hndT1 : ((passPreyAll Animal.eatAnimal Animal.rect
      (fun a en => Event.eat a.x a.y en "trucha") Animal.eid
      e.trout
      (passPreyAll Animal.eatPlant Plant.rect
        (fun a en => Event.eat a.x a.y en "pez") Plant.eid
        e.fish e.plants).1).1.map Animal.eid).Nodup := by
    rw [predids2]; exact hT
  have spec3 := passPreyAll_spec Animal.eatAnimal Animal.rect
    (fun a en => Event.eat a.x a.y en "tiburon") Animal.eid eatAnimal_prey_eid
    e.sharks
    (passPreyAll Animal.eatAnimal Animal.rect
      (fun a en => Event.eat a.x a.y en "trucha") Animal.eid
      e.trout
      (passPreyAll Animal.eatPlant Plant.rect
        (fun a en => Event.eat a.x a.y en "pez") Plant.eid
        e.fish e.plants).1).1
    hndT1
  obtain ⟨s1nd, s1sub, _, _, _⟩ := spec1
  obtain ⟨s2nd, s2sub0, _, _, _⟩ := spec2
  obtain ⟨s3nd, s3sub0, _, _, _⟩ := spec3
  have s2sub : ∀ i, i ∈ (passPreyAll Animal.eatAnimal Animal.rect
      (fun a en => Event.eat a.x a.y en "trucha") Animal.eid
      e.trout
      (passPreyAll Animal.eatPlant Plant.rect
        (fun a en => Event.eat a.x a.y en "pez") Plant.eid
        e.fish e.plants).1).2.2.map Prod.snd →
      i ∈ e.fish.map Animal.eid := by
    intro i hi
    have hmem := s2sub0 i hi
    rw [predids1] at hmem
    exact hmem
  have s3sub : ∀ i, i ∈ (passPreyAll Animal.eatAnimal Animal.rect
      (fun a en => Event.eat a.x a.y en "tiburon") Animal.eid
      e.sharks
      (passPreyAll Animal.eatAnimal Animal.rect
        (fun a en => Event.eat a.x a.y en "trucha") Animal.eid
        e.trout
        (passPreyAll Animal.eatPlant Plant.rect
          (fun a en => Event.eat a.x a.y en "pez") Plant.eid
          e.fish e.plants).1).1).2.2.map Prod.snd →
      i ∈ e.trout.map Animal.eid := by
    intro i hi
    have hmem := s3sub0 i hi
    rw [predids2] at hmem
    exact hmem
  unfold Ecosystem.process_interactions passFishPlants passTroutFish passSharkTrout
  dsimp only
  rw [List.map_append, List.map_append]
  constructor
  · refine List.Nodup.append (List.Nodup.append s1nd s2nd ?_) s3nd ?_
    · intro i hi1 hi2
      exact hdisjPF (s1sub i hi1) (s2sub i hi2)
    · intro i hi1 hi3
      rw [List.mem_append] at hi1
      rcases hi1 with hi1 | hi2
      · exact hdisjPFT (List.mem_append_left _ (s1sub i hi1)) (s3sub i hi3)
      · exact hdisjPFT (List.mem_append_right _ (s2sub i hi2)) (s3sub i hi3)
  · intro i hi
    rw [List.mem_append] at hi
    rcases hi with hi | hi3
    · rw [List.mem_append] at hi
      rcases hi with hi1 | hi2
      · exact List.mem_append_left _ (List.mem_append_left _ (s1sub i hi1))
      · exact List.mem_append_left _ (List.mem_append_right _ (s2sub i hi2))
    · exact List.mem_append_right _ (s3sub i hi3)

set_option maxRecDepth 4000 in
/-- Witness for C5: in `C5_eco` (one fish overlapping one full-grown plant)
the single eat event's prey ids are duplicate-free. -/
theorem C5_witness :
    ((C5_eco.process_interactions).2.map Prod.snd).Nodup :=
  (C5_no_double_consumption C5_eco (by with_unfolding_all decide)).1

/-- The animal fields that the energy invariant depends on; everything
except `update`'s consumption step, `eat` and `reproduce` leaves them
untouched. -/
def coreEq (b a : Animal) : Prop :=
  b.energy = a.energy ∧ b.max_energy = a.max_energy ∧
  b.base_consumption = a.base_consumption ∧ b.species = a.species

lemma coreEq_refl (a : Animal) : coreEq a a := ⟨rfl, rfl, rfl, rfl⟩

lemma coreEq_trans {c b a : Animal} (h1 : coreEq c b) (h2 : coreEq b a) :
    coreEq c a :=
  ⟨h1.1.trans h2.1, h1.2.1.trans h2.2.1, h1.2.2.1.trans h2.2.2.1,
   h1.2.2.2.trans h2.2.2.2⟩

lemma wfAnimal_of_coreEq {b a : Animal} (h : coreEq b a) (ha : wfAnimal a) :
    wfAnimal b := by
  unfold wfAnimal at *
  rw [h.1, h.2.1, h.2.2.1, h.2.2.2]
  exact ha

lemma season_energy_consumption_pos (s : String) :
    0 < season_energy_consumption s := by
  unfold season_energy_consumption
  split_ifs <;> norm_num

lemma speciesMaxEnergy_pos (sp : Species) : 0 < speciesMaxEnergy sp := by
  cases sp <;> norm_num [speciesMaxEnergy]

lemma apply_season_coreEq (a : Animal) (s : String) :
    coreEq (a.apply_season_modifiers s) a := ⟨rfl, rfl, rfl, rfl⟩

lemma apply_season_consumption (a : Animal) (s : String) :
    (a.apply_season_modifiers s).consumption
      = a.base_consumption * season_energy_consumption s := rfl

lemma move_coreEq (a : Animal) (s : ℚ) :
    coreEq (a.move_towards_target s).1 a := by
  unfold Animal.move_towards_target Animal.clamp_to_bounds
  dsimp only
  repeat' split
  all_goals exact ⟨rfl, rfl, rfl, rfl⟩

lemma fish_school_coreEq (a : Animal) (e : Ecosystem) (rng : Rng) :
    coreEq (Fish.decide_school_wander a e rng).1 a := by
  unfold Fish.decide_school_wander
  dsimp only
  repeat' split
  all_goals exact ⟨rfl, rfl, rfl, rfl⟩

lemma fish_hunger_coreEq (a : Animal) (e : Ecosystem) (rng : Rng) :
    coreEq (Fish.decide_hunger a e rng).1 a := by
  unfold Fish.decide_hunger
  try dsimp only
  repeat' split
  all_goals first
    | exact ⟨rfl, rfl, rfl, rfl⟩
    | exact fish_school_coreEq a e rng

lemma fish_decide_coreEq (a : Animal) (e : Ecosystem) (rng : Rng) :
    coreEq (Fish.decide_action a e rng).1 a := by
  unfold Fish.decide_action
  dsimp only
  repeat' split
  all_goals first
    | exact ⟨rfl, rfl, rfl, rfl⟩
    | exact fish_hunger_coreEq a e rng

lemma shark_decide_coreEq (a : Animal) (e : Ecosystem) (rng : Rng) :
    coreEq (Shark.decide_action a e rng).1 a := by
  unfold Shark.decide_action
  try dsimp only
  repeat' split
  all_goals exact ⟨rfl, rfl, rfl, rfl⟩

lemma select_target_snd_coreEq (a : Animal) (e : Ecosystem) :
    coreEq (Trout.select_target a e).2 a := by
  unfold Trout.select_target
  dsimp only
  repeat' split
  all_goals exact ⟨rfl, rfl, rfl, rfl⟩

lemma hunt_assign_coreEq (tgt m : Animal) :
    coreEq (Trout.hunt_assign tgt m) m := ⟨rfl, rfl, rfl, rfl⟩

lemma decide_rest_coreEq (a : Animal) (e : Ecosystem) (rng : Rng) :
    coreEq (Trout.decide_rest a e rng).1 a := by
  unfold Trout.decide_rest
  dsimp only
  repeat' split
  all_goals dsimp only
  all_goals first
    | exact select_target_snd_coreEq a e
    | exact coreEq_trans (hunt_assign_coreEq _ _) (select_target_snd_coreEq a e)
    | exact ⟨rfl, rfl, rfl, rfl⟩

lemma trout_decide_coreEq (a : Animal) (e : Ecosystem) (rng : Rng) :
    coreEq (Trout.decide_action a e rng).1 a := by
  unfold Trout.decide_action
  dsimp only
  repeat' split
  all_goals first
    | exact ⟨rfl, rfl, rfl, rfl⟩
    | exact decide_rest_coreEq a e rng
    | exact coreEq_trans
        (decide_rest_coreEq { a with speed := a.base_speed * a.season_move_mult } e rng)
        ⟨rfl, rfl, rfl, rfl⟩

lemma decide_rest_eco (a : Animal) (e : Ecosystem) (rng : Rng) :
    (Trout.decide_rest a e rng).2.1.plants = e.plants ∧
    (Trout.decide_rest a e rng).2.1.fish = e.fish ∧
    (Trout.decide_rest a e rng).2.1.sharks = e.sharks ∧
    ∀ m ∈ (Trout.decide_rest a e rng).2.1.trout,
      ∃ m0 ∈ e.trout, coreEq m m0 := by
  unfold Trout.decide_rest
  dsimp only
  repeat' split
  all_goals refine ⟨rfl, rfl, rfl, ?_⟩
  all_goals try (intro m hm; exact ⟨m, hm, coreEq_refl m⟩)
  intro m hm
  rw [List.mem_map] at hm
  obtain ⟨m0, hm0, hEq⟩ := hm
  refine ⟨m0, hm0, ?_⟩
  rw [← hEq]
  by_cases hc : ((e.form_trout_pack (Trout.select_target a e).2 TROUT_PACK_RADIUS
      TROUT_MAX_PACK_SIZE).map Animal.eid).contains m0.eid
  · rw [if_pos hc]
    exact hunt_assign_coreEq _ _
  · rw [if_neg hc]
    exact coreEq_refl m0

lemma trout_decide_eco (a : Animal) (e : Ecosystem) (rng : Rng) :
    (Trout.decide_action a e rng).2.1.plants = e.plants ∧
    (Trout.decide_action a e rng).2.1.fish = e.fish ∧
    (Trout.decide_action a e rng).2.1.sharks = e.sharks ∧
    ∀ m ∈ (Trout.decide_action a e rng).2.1.trout,
      ∃ m0 ∈ e.trout, coreEq m m0 := by
  unfold Trout.decide_action
  dsimp only
  repeat' split
  all_goals first
    | exact ⟨rfl, rfl, rfl, fun m hm => ⟨m, hm, coreEq_refl m⟩⟩
    | exact decide_rest_eco _ _ _

lemma update_eco_spec (a : Animal) (dt : ℚ) (e : Ecosystem) (rng : Rng) :
    (a.update dt e rng).2.1.plants = e.plants ∧
    (a.update dt e rng).2.1.fish = e.fish ∧
    (a.update dt e rng).2.1.sharks = e.sharks ∧
    ∀ m ∈ (a.update dt e rng).2.1.trout, ∃ m0 ∈ e.trout, coreEq m m0 := by
  unfold Animal.update
  dsimp only
  repeat' split
  all_goals first
    | exact ⟨rfl, rfl, rfl, fun m hm => ⟨m, hm, coreEq_refl m⟩⟩
    | exact trout_decide_eco _ _ _

/-- The per-turn consumption/ageing step keeps the energy bounds. -/
lemma consume_wf (b : Animal) (dt : ℚ) (hb : wfAnimal b) (hdt : 0 ≤ dt)
    (hcons : 0 ≤ b.consumption) :
    wfAnimal { b with energy := max 0 (b.energy - b.consumption * dt),
                      age := b.age + dt } := by
  obtain ⟨h1, h2, h3, h4⟩ := hb
  refine ⟨le_max_left _ _, ?_, h3, h4⟩
  apply max_le
  · rw [h4]
    exact le_of_lt (speciesMaxEnergy_pos _)
  · have : 0 ≤ b.consumption * dt := mul_nonneg hcons hdt
    linarith

lemma update_self_wf (a : Animal) (dt : ℚ) (e : Ecosystem) (rng : Rng)
    (ha : wfAnimal a) (hdt : 0 ≤ dt) : wfAnimal (a.update dt e rng).1 := by
  have hbw : wfAnimal (a.apply_season_modifiers e.time_system.get_season) :=
    wfAnimal_of_coreEq (apply_season_coreEq a _) ha
  have hconsb : 0 ≤ (a.apply_season_modifiers e.time_system.get_season).consumption := by
    rw [apply_season_consumption]
    exact mul_nonneg ha.2.2.1 (le_of_lt (season_energy_consumption_pos _))
  have ha2 := consume_wf (a.apply_season_modifiers e.time_system.get_season)
    dt hbw hdt hconsb
  unfold Animal.update
  dsimp only
  split
  · exact ha2
  · repeat' split
    all_goals first
      | exact wfAnimal_of_coreEq
          (coreEq_trans (move_coreEq _ _) (fish_decide_coreEq _ _ _)) ha2
      | exact wfAnimal_of_coreEq (fish_decide_coreEq _ _ _) ha2
      | exact wfAnimal_of_coreEq
          (coreEq_trans (move_coreEq _ _) (trout_decide_coreEq _ _ _)) ha2
      | exact wfAnimal_of_coreEq (trout_decide_coreEq _ _ _) ha2
      | exact wfAnimal_of_coreEq
          (coreEq_trans (move_coreEq _ _) (shark_decide_coreEq _ _ _)) ha2
      | exact wfAnimal_of_coreEq (shark_decide_coreEq _ _ _) ha2

lemma update_WF (a : Animal) (dt : ℚ) (e : Ecosystem) (rng : Rng) (hw : WF e) :
    WF ((a.update dt e rng).2.1) := by
  obtain ⟨hf, ht, hs, hp⟩ := hw
  obtain ⟨e1, e2, e3, e4⟩ := update_eco_spec a dt e rng
  refine ⟨?_, ?_, ?_, ?_⟩
  · rw [e2]; exact hf
  · intro m hm
    obtain ⟨m0, hm0, hc⟩ := e4 m hm
    exact wfAnimal_of_coreEq hc (ht m0 hm0)
  · rw [e3]; exact hs
  · rw [e1]; exact hp

/-! ### C4: preservation of the energy bounds through a full turn -/

lemma fish_new_wf (k : ℕ) (x y bs : ℚ) : wfAnimal (Fish.new k x y bs) := by
  unfold wfAnimal Fish.new speciesMaxEnergy
  norm_num

lemma trout_new_wf (k : ℕ) (x y bs : ℚ) : wfAnimal (Trout.new k x y bs) := by
  unfold wfAnimal Trout.new speciesMaxEnergy
  norm_num

lemma shark_new_wf (k : ℕ) (x y bs : ℚ) : wfAnimal (Shark.new k x y bs) := by
  unfold wfAnimal Shark.new speciesMaxEnergy
  norm_num

lemma plant_new_wf (k : ℕ) (x y : ℚ) : wfPlant (Plant.new k x y) := by
  unfold wfPlant Plant.new
  norm_num

lemma fish_baby_wf (x y bs : ℚ) :
    wfAnimal { Fish.new 0 x y bs with energy := 50 } := by
  unfold wfAnimal Fish.new speciesMaxEnergy
  norm_num

lemma trout_baby_wf (x y bs : ℚ) :
    wfAnimal { Trout.new 0 x y bs with energy := 100 } := by
  unfold wfAnimal Trout.new speciesMaxEnergy
  norm_num

lemma shark_baby_wf (x y bs : ℚ) :
    wfAnimal { Shark.new 0 x y bs with energy := 150 } := by
  unfold wfAnimal Shark.new speciesMaxEnergy
  norm_num

/-- Reproduction keeps both the parent (the cost never drives a parent that
passed `can_reproduce` negative) and the offspring inside the energy bounds. -/
lemma reproduce_wf (a p b : Animal) (rng rng2 : Rng) (ha : wfAnimal a)
    (h : a.reproduce rng = (some (p, b), rng2)) : wfAnimal p ∧ wfAnimal b := by
  obtain ⟨h1, h2, h3, h4⟩ := ha
  unfold Animal.reproduce at h
  dsimp only at h
  split at h
  · rename_i hok
    split at h
    · rename_i heq
      injection h with ha1 ha2
      injection ha1 with ha3
      injection ha3 with hp hb
      subst hp
      subst hb
      unfold Animal.can_reproduce at hok
      rw [heq] at hok
      dsimp only at hok
      split at hok
      · rename_i hcond
        have hmax : a.max_energy = 100 := by rw [h4, heq]; rfl
        have hen : (70 : ℚ) < a.energy := by
          have hc := hcond.1
          rw [hmax] at hc
          norm_num at hc
          exact hc
        constructor
        · refine ⟨?_, ?_, h3, h4⟩
          · show (0 : ℚ) ≤ a.energy - 30
            linarith
          · show a.energy - 30 ≤ a.max_energy
            linarith
        · exact fish_baby_wf _ _ _
      · simp at hok
    · rename_i heq
      injection h with ha1 ha2
      injection ha1 with ha3
      injection ha3 with hp hb
      subst hp
      subst hb
      unfold Animal.can_reproduce at hok
      rw [heq] at hok
      dsimp only at hok
      split at hok
      · rename_i hcond
        have hmax : a.max_energy = 180 := by rw [h4, heq]; rfl
        have hen : (108 : ℚ) < a.energy := by
          have hc := hcond.1
          rw [hmax] at hc
          norm_num at hc
          exact hc
        constructor
        · refine ⟨?_, ?_, h3, h4⟩
          · show (0 : ℚ) ≤ a.energy - 50
            linarith
          · show a.energy - 50 ≤ a.max_energy
            linarith
        · exact trout_baby_wf _ _ _
      · simp at hok
    · rename_i heq
      injection h with ha1 ha2
      injection ha1 with ha3
      injection ha3 with hp hb
      subst hp
      subst hb
      unfold Animal.can_reproduce at hok
      rw [heq] at hok
      dsimp only at hok
      split at hok
      · rename_i hcond
        have hmax : a.max_energy = 300 := by rw [h4, heq]; rfl
        have hen : (210 : ℚ) < a.energy := by
          have hc := hcond.1
          rw [hmax] at hc
          norm_num at hc
          exact hc
        constructor
        · refine ⟨?_, ?_, h3, h4⟩
          · show (0 : ℚ) ≤ a.energy - 80
            linarith
          · show a.energy - 80 ≤ a.max_energy
            linarith
        · exact shark_baby_wf _ _ _
      · simp at hok
  · injection h with ha1 ha2
    exact absurd ha1 (by simp)

lemma wf_set_random (b : Animal) (rng : Rng) (hb : wfAnimal b) :
    wfAnimal (b.set_random_position rng).1 := by
  unfold Animal.set_random_position
  exact hb

lemma assign_id_animal_wf (e : Ecosystem) (b : Animal) (hb : wfAnimal b) :
    wfAnimal (e.assign_id_animal b).1 := by
  unfold Ecosystem.assign_id_animal
  split
  · exact hb
  · exact hb

lemma assign_id_animal_WF (e : Ecosystem) (b : Animal) (hw : WF e) :
    WF (e.assign_id_animal b).2 := by
  unfold Ecosystem.assign_id_animal
  split
  · exact hw
  · exact hw

lemma wf_plant_set_random (p : Plant) (rng : Rng) (hp : wfPlant p) :
    wfPlant (p.set_random_position rng).1 := by
  unfold Plant.set_random_position
  exact hp

lemma assign_id_plant_wf (e : Ecosystem) (p : Plant) (hp : wfPlant p) :
    wfPlant (e.assign_id_plant p).1 := by
  unfold Ecosystem.assign_id_plant
  split
  · exact hp
  · exact hp

lemma assign_id_plant_WF (e : Ecosystem) (p : Plant) (hw : WF e) :
    WF (e.assign_id_plant p).2 := by
  unfold Ecosystem.assign_id_plant
  split
  · exact hw
  · exact hw

lemma foldl_preserves {β γ : Type} (P : β → Prop) (step : β → γ → β)
    (l : List γ) (init : β) (h0 : P init)
    (hstep : ∀ b x, P b → P (step b x)) : P (l.foldl step init) := by
  induction l generalizing init with
  | nil => exact h0
  | cons x xs ih => exact ih (step init x) (hstep init x h0)

lemma removeDead_wf (lst dead : List Animal) (h : ∀ x ∈ lst, wfAnimal x) :
    ∀ x ∈ (removeDead lst dead).1, wfAnimal x := by
  unfold removeDead
  refine foldl_preserves
    (fun s : List Animal × List Event => ∀ x ∈ s.1, wfAnimal x)
    _ dead (lst, []) h ?_
  intro s a hs
  dsimp only
  split
  · intro x hx
    exact hs x (List.mem_of_mem_erase hx)
  · exact hs

lemma fishPhaseStep_WF (dt : ℚ) (hdt : 0 ≤ dt) (acc : PhaseAcc) (i : ℕ)
    (hw : WF acc.e) (hb : ∀ b ∈ acc.born, wfAnimal b) :
    WF (fishPhaseStep dt acc i).e ∧
      ∀ b ∈ (fishPhaseStep dt acc i).born, wfAnimal b := by
  unfold fishPhaseStep
  cases hga : acc.e.fish[i]? with
  | none => exact ⟨hw, hb⟩
  | some a =>
    have hmem : a ∈ acc.e.fish := by
      obtain ⟨hlt, hEq⟩ := List.getElem?_eq_some.mp hga
      exact hEq ▸ List.getElem_mem hlt
    have haw : wfAnimal a := hw.1 a hmem
    dsimp only
    rcases hu : a.update dt acc.e acc.rng with ⟨a1, e1, alive, rng1⟩
    try dsimp only
    have hself : wfAnimal a1 := by
      have hx := update_self_wf a dt acc.e acc.rng haw hdt
      rw [hu] at hx
      exact hx
    have hwe1 : WF e1 := by
      have hx := update_WF a dt acc.e acc.rng hw
      rw [hu] at hx
      exact hx
    have hw2 : WF { e1 with fish := e1.fish.set i a1 } := by
      obtain ⟨f1, t1, s1, p1⟩ := hwe1
      refine ⟨?_, t1, s1, p1⟩
      intro x hx
      rcases List.mem_or_eq_of_mem_set hx with hx | rfl
      · exact f1 x hx
      · exact hself
    try dsimp only
    split
    · rcases hcr : a1.can_reproduce rng1 with ⟨ok, rng2⟩
      try dsimp only
      split
      · rcases hrep : a1.reproduce rng2 with ⟨orep, rng3⟩
        try dsimp only
        cases orep with
        | none => exact ⟨hw2, hb⟩
        | some pb =>
          rcases pb with ⟨parent, baby0⟩
          try dsimp only
          obtain ⟨hpw, hbw⟩ := reproduce_wf a1 parent baby0 rng2 rng3 hself hrep
          constructor
          · have hw3 : WF ({ e1 with fish := e1.fish.set i a1 }.assign_id_animal
                baby0).2 := assign_id_animal_WF _ baby0 hw2
            obtain ⟨f1, t1, s1, p1⟩ := hw3
            refine ⟨?_, t1, s1, p1⟩
            intro x hx
            rcases List.mem_or_eq_of_mem_set hx with hx | rfl
            · exact f1 x hx
            · exact hpw
          · intro bb hbb
            rcases List.mem_append.mp hbb with hbb | hbb
            · exact hb bb hbb
            · simp only [List.mem_singleton] at hbb
              subst hbb
              exact wf_set_random _ rng3 (assign_id_animal_wf _ baby0 hbw)
      · exact ⟨hw2, hb⟩
    · exact ⟨hw2, hb⟩

lemma troutPhaseStep_WF (dt : ℚ) (hdt : 0 ≤ dt) (acc : PhaseAcc) (i : ℕ)
    (hw : WF acc.e) (hb : ∀ b ∈ acc.born, wfAnimal b) :
    WF (troutPhaseStep dt acc i).e ∧
      ∀ b ∈ (troutPhaseStep dt acc i).born, wfAnimal b := by
  unfold troutPhaseStep
  cases hga : acc.e.trout[i]? with
  | none => exact ⟨hw, hb⟩
  | some a =>
    have hmem : a ∈ acc.e.trout := by
      obtain ⟨hlt, hEq⟩ := List.getElem?_eq_some.mp hga
      exact hEq ▸ List.getElem_mem hlt
    have haw : wfAnimal a := hw.2.1 a hmem
    dsimp only
    rcases hu : a.update dt acc.e acc.rng with ⟨a1, e1, alive, rng1⟩
    try dsimp only
    have hself : wfAnimal a1 := by
      have hx := update_self_wf a dt acc.e acc.rng haw hdt
      rw [hu] at hx
      exact hx
    have hwe1 : WF e1 := by
      have hx := update_WF a dt acc.e acc.rng hw
      rw [hu] at hx
      exact hx
    have hw2 : WF { e1 with trout := e1.trout.set i a1 } := by
      obtain ⟨f1, t1, s1, p1⟩ := hwe1
      refine ⟨f1, ?_, s1, p1⟩
      intro x hx
      rcases List.mem_or_eq_of_mem_set hx with hx | rfl
      · exact t1 x hx
      · exact hself
    try dsimp only
    split
    · rcases hcr : a1.can_reproduce rng1 with ⟨ok, rng2⟩
      try dsimp only
      split
      · rcases hrep : a1.reproduce rng2 with ⟨orep, rng3⟩
        try dsimp only
        cases orep with
        | none => exact ⟨hw2, hb⟩
        | some pb =>
          rcases pb with ⟨parent, baby0⟩
          try dsimp only
          obtain ⟨hpw, hbw⟩ := reproduce_wf a1 parent baby0 rng2 rng3 hself hrep
          constructor
          · have hw3 : WF ({ e1 with trout := e1.trout.set i a1 }.assign_id_animal
                baby0).2 := assign_id_animal_WF _ baby0 hw2
            obtain ⟨f1, t1, s1, p1⟩ := hw3
            refine ⟨f1, ?_, s1, p1⟩
            intro x hx
            rcases List.mem_or_eq_of_mem_set hx with hx | rfl
            · exact t1 x hx
            · exact hpw
          · intro bb hbb
            rcases List.mem_append.mp hbb with hbb | hbb
            · exact hb bb hbb
            · simp only [List.mem_singleton] at hbb
              subst hbb
              exact wf_set_random _ rng3 (assign_id_animal_wf _ baby0 hbw)
      · exact ⟨hw2, hb⟩
    · exact ⟨hw2, hb⟩

lemma sharkPhaseStep_WF (dt : ℚ) (hdt : 0 ≤ dt) (acc : PhaseAcc) (i : ℕ)
    (hw : WF acc.e) (hb : ∀ b ∈ acc.born, wfAnimal b) :
    WF (sharkPhaseStep dt acc i).e ∧
      ∀ b ∈ (sharkPhaseStep dt acc i).born, wfAnimal b := by
  unfold sharkPhaseStep
  cases hga : acc.e.sharks[i]? with
  | none => exact ⟨hw, hb⟩
  | some a =>
    have hmem : a ∈ acc.e.sharks := by
      obtain ⟨hlt, hEq⟩ := List.getElem?_eq_some.mp hga
      exact hEq ▸ List.getElem_mem hlt
    have haw : wfAnimal a := hw.2.2.1 a hmem
    dsimp only
    rcases hu : a.update dt acc.e acc.rng with ⟨a1, e1, alive, rng1⟩
    try dsimp only
    have hself : wfAnimal a1 := by
      have hx := update_self_wf a dt acc.e acc.rng haw hdt
      rw [hu] at hx
      exact hx
    have hwe1 : WF e1 := by
      have hx := update_WF a dt acc.e acc.rng hw
      rw [hu] at hx
      exact hx
    have hw2 : WF { e1 with sharks := e1.sharks.set i a1 } := by
      obtain ⟨f1, t1, s1, p1⟩ := hwe1
      refine ⟨f1, t1, ?_, p1⟩
      intro x hx
      rcases List.mem_or_eq_of_mem_set hx with hx | rfl
      · exact s1 x hx
      · exact hself
    try dsimp only
    split
    · rcases hcr : a1.can_reproduce rng1 with ⟨ok, rng2⟩
      try dsimp only
      split
      · rcases hrep : a1.reproduce rng2 with ⟨orep, rng3⟩
        try dsimp only
        cases orep with
        | none => exact ⟨hw2, hb⟩
        | some pb =>
          rcases pb with ⟨parent, baby0⟩
          try dsimp only
          obtain ⟨hpw, hbw⟩ := reproduce_wf a1 parent baby0 rng2 rng3 hself hrep
          constructor
          · have hw3 : WF ({ e1 with sharks := e1.sharks.set i a1 }.assign_id_animal
                baby0).2 := assign_id_animal_WF _ baby0 hw2
            obtain ⟨f1, t1, s1, p1⟩ := hw3
            refine ⟨f1, t1, ?_, p1⟩
            intro x hx
            rcases List.mem_or_eq_of_mem_set hx with hx | rfl
            · exact s1 x hx
            · exact hpw
          · intro bb hbb
            rcases List.mem_append.mp hbb with hbb | hbb
            · exact hb bb hbb
            · simp only [List.mem_singleton] at hbb
              subst hbb
              exact wf_set_random _ rng3 (assign_id_animal_wf _ baby0 hbw)
      · exact ⟨hw2, hb⟩
    · exact ⟨hw2, hb⟩

lemma update_animals_WF (e : Ecosystem) (dt : ℚ) (rng : Rng) (hw : WF e)
    (hdt : 0 ≤ dt) : WF (e.update_animals dt rng).1 := by
  unfold Ecosystem.update_animals
  try dsimp only
  have h1 : (fun acc : PhaseAcc => WF acc.e ∧ ∀ b ∈ acc.born, wfAnimal b)
      ((List.range e.fish.length).foldl (fishPhaseStep dt) ⟨e, rng, [], []⟩) :=
    foldl_preserves (fun acc : PhaseAcc => WF acc.e ∧ ∀ b ∈ acc.born, wfAnimal b)
      (fishPhaseStep dt) _ ⟨e, rng, [], []⟩ ⟨hw, by simp⟩
      (fun acc i hacc => fishPhaseStep_WF dt hdt acc i hacc.1 hacc.2)
  set accF := (List.range e.fish.length).foldl (fishPhaseStep dt)
    ⟨e, rng, [], []⟩ with hFdef
  have h2 : (fun acc : PhaseAcc => WF acc.e ∧ ∀ b ∈ acc.born, wfAnimal b)
      ((List.range accF.e.trout.length).foldl (troutPhaseStep dt)
        ⟨accF.e, accF.rng, [], []⟩) :=
    foldl_preserves (fun acc : PhaseAcc => WF acc.e ∧ ∀ b ∈ acc.born, wfAnimal b)
      (troutPhaseStep dt) _ ⟨accF.e, accF.rng, [], []⟩
      ⟨h1.1, by simp⟩
      (fun acc i hacc => troutPhaseStep_WF dt hdt acc i hacc.1 hacc.2)
  set accT := (List.range accF.e.trout.length).foldl (troutPhaseStep dt)
    ⟨accF.e, accF.rng, [], []⟩ with hTdef
  have h3 : (fun acc : PhaseAcc => WF acc.e ∧ ∀ b ∈ acc.born, wfAnimal b)
      ((List.range accT.e.sharks.length).foldl (sharkPhaseStep dt)
        ⟨accT.e, accT.rng, [], []⟩) :=
    foldl_preserves (fun acc : PhaseAcc => WF acc.e ∧ ∀ b ∈ acc.born, wfAnimal b)
      (sharkPhaseStep dt) _ ⟨accT.e, accT.rng, [], []⟩
      ⟨h2.1, by simp⟩
      (fun acc i hacc => sharkPhaseStep_WF dt hdt acc i hacc.1 hacc.2)
  set accS := (List.range accT.e.sharks.length).foldl (sharkPhaseStep dt)
    ⟨accT.e, accT.rng, [], []⟩ with hSdef
  obtain ⟨⟨hf3, ht3, hs3, hp3⟩, hbS⟩ := h3
  refine ⟨?_, ?_, ?_, hp3⟩
  · intro x hx
    rcases List.mem_append.mp hx with hx | hx
    · exact removeDead_wf accS.e.fish accF.dead hf3 x hx
    · exact h1.2 x hx
  · intro x hx
    rcases List.mem_append.mp hx with hx | hx
    · exact removeDead_wf accS.e.trout accT.dead ht3 x hx
    · exact h2.2 x hx
  · intro x hx
    rcases List.mem_append.mp hx with hx | hx
    · exact removeDead_wf accS.e.sharks accS.dead hs3 x hx
    · exact hbS x hx

lemma eat_plant_self_wf (a : Animal) (p : Plant) (ha : wfAnimal a)
    (hp : wfPlant p) : wfAnimal (a.eat (Being.plant p)).2.1 := by
  obtain ⟨h1, h2, h3, h4⟩ := ha
  obtain ⟨g1, g2⟩ := hp
  have hX : 0 ≤ p.energy_value * (p.growth / 100) := by
    rw [g2]
    exact mul_nonneg (by norm_num) (div_nonneg g1 (by norm_num))
  unfold Animal.eat
  split
  · cases hsp : a.species
    case fish =>
      rw [hsp] at h4
      dsimp only
      exact ⟨le_min (by rw [h4]; exact le_of_lt (speciesMaxEnergy_pos _))
        (add_nonneg h1 hX), min_le_left _ _, h3, h4⟩
    case trout =>
      exact ⟨h1, h2, h3, h4⟩
    case shark =>
      exact ⟨h1, h2, h3, h4⟩
  · exact ⟨h1, h2, h3, h4⟩

lemma eat_animal_self_wf (a q : Animal) (ha : wfAnimal a) (hq : wfAnimal q) :
    wfAnimal (a.eat (Being.animal q)).2.1 := by
  obtain ⟨h1, h2, h3, h4⟩ := ha
  unfold Animal.eat
  split
  · cases hsp : a.species
    case fish =>
      exact ⟨h1, h2, h3, h4⟩
    case trout =>
      rw [hsp] at h4
      dsimp only
      exact ⟨le_min (by rw [h4]; exact le_of_lt (speciesMaxEnergy_pos _))
        (add_nonneg h1 (le_min (by norm_num) (mul_nonneg hq.1 (by norm_num)))),
        min_le_left _ _, h3, h4⟩
    case shark =>
      rw [hsp] at h4
      dsimp only
      exact ⟨le_min (by rw [h4]; exact le_of_lt (speciesMaxEnergy_pos _))
        (add_nonneg h1 (le_min (by norm_num) (mul_nonneg hq.1 (by norm_num)))),
        min_le_left _ _, h3, h4⟩
  · exact ⟨h1, h2, h3, h4⟩

lemma eatPlant_self_wf (a : Animal) (p : Plant) (ha : wfAnimal a)
    (hp : wfPlant p) : wfAnimal (a.eatPlant p).2.1 := by
  have h := eat_plant_self_wf a p ha hp
  unfold Animal.eatPlant
  rcases he : a.eat (Being.plant p) with ⟨en, a1, o⟩
  rw [he] at h
  dsimp only at h
  cases o <;> exact h

lemma eatPlant_prey_wf (a : Animal) (p : Plant) (hp : wfPlant p) :
    wfPlant (a.eatPlant p).2.2 := by
  unfold Animal.eatPlant
  rcases he : a.eat (Being.plant p) with ⟨en, a1, o⟩
  have hsh := eat_plant_prey a p
  rw [he] at hsh
  dsimp only at hsh
  rcases hsh with ho | ho
  · subst ho
    exact hp
  · subst ho
    exact ⟨le_refl 0, hp.2⟩

lemma eatAnimal_self_wf (a q : Animal) (ha : wfAnimal a) (hq : wfAnimal q) :
    wfAnimal (a.eatAnimal q).2.1 := by
  have h := eat_animal_self_wf a q ha hq
  unfold Animal.eatAnimal
  rcases he : a.eat (Being.animal q) with ⟨en, a1, o⟩
  rw [he] at h
  dsimp only at h
  cases o <;> exact h

lemma eatAnimal_prey_wf (a q : Animal) (hq : wfAnimal q) :
    wfAnimal (a.eatAnimal q).2.2 := by
  unfold Animal.eatAnimal
  rcases he : a.eat (Being.animal q) with ⟨en, a1, o⟩
  have hsh := eat_animal_prey a q
  rw [he] at hsh
  dsimp only at hsh
  subst hsh
  exact hq

lemma scanFirstPrey_wf {α : Type} (eatF : Animal → α → ℚ × Animal × α)
    (rectF : α → PyRect) (evF : Animal → ℚ → Event) (eidF : α → ℕ)
    (Q : α → Prop)
    (hpredwf : ∀ p q, wfAnimal p → Q q → wfAnimal (eatF p q).2.1)
    (hpreywf : ∀ p q, Q q → Q (eatF p q).2.2)
    (pred : Animal) (qs : List α) (hp : wfAnimal pred) (hq : ∀ q ∈ qs, Q q) :
    wfAnimal (scanFirstPrey eatF rectF evF eidF pred qs).1 ∧
      ∀ q ∈ (scanFirstPrey eatF rectF evF eidF pred qs).2.1, Q q := by
  induction qs generalizing pred with
  | nil =>
    unfold scanFirstPrey
    exact ⟨hp, by simp⟩
  | cons q qs ih =>
    have hq0 : Q q := hq q (List.mem_cons_self q qs)
    have hqs : ∀ x ∈ qs, Q x := fun x hx => hq x (List.mem_cons_of_mem q hx)
    unfold scanFirstPrey
    dsimp only
    split
    · split
      · exact ⟨hpredwf pred q hp hq0, hqs⟩
      · obtain ⟨r1, r2⟩ := ih (eatF pred q).2.1 (hpredwf pred q hp hq0) hqs
        refine ⟨r1, ?_⟩
        intro x hx
        rcases List.mem_cons.mp hx with rfl | hx
        · exact hpreywf pred q hq0
        · exact r2 x hx
    · obtain ⟨r1, r2⟩ := ih pred hp hqs
      refine ⟨r1, ?_⟩
      intro x hx
      rcases List.mem_cons.mp hx with rfl | hx
      · exact hq0
      · exact r2 x hx

lemma passPreyAll_wf {α : Type} (eatF : Animal → α → ℚ × Animal × α)
    (rectF : α → PyRect) (evF : Animal → ℚ → Event) (eidF : α → ℕ)
    (Q : α → Prop)
    (hpredwf : ∀ p q, wfAnimal p → Q q → wfAnimal (eatF p q).2.1)
    (hpreywf : ∀ p q, Q q → Q (eatF p q).2.2)
    (preds : List Animal) (qs : List α)
    (hps : ∀ p ∈ preds, wfAnimal p) (hq : ∀ q ∈ qs, Q q) :
    (∀ p ∈ (passPreyAll eatF rectF evF eidF preds qs).1, wfAnimal p) ∧
      ∀ q ∈ (passPreyAll eatF rectF evF eidF preds qs).2.1, Q q := by
  induction preds generalizing qs with
  | nil =>
    unfold passPreyAll
    exact ⟨by simp, hq⟩
  | cons p ps ih =>
    have hp0 : wfAnimal p := hps p (List.mem_cons_self p ps)
    have hps1 : ∀ x ∈ ps, wfAnimal x :=
      fun x hx => hps x (List.mem_cons_of_mem p hx)
    unfold passPreyAll
    dsimp only
    obtain ⟨s1, s2⟩ := scanFirstPrey_wf eatF rectF evF eidF Q hpredwf hpreywf
      p qs hp0 hq
    obtain ⟨r1, r2⟩ := ih (scanFirstPrey eatF rectF evF eidF p qs).2.1 hps1 s2
    refine ⟨?_, r2⟩
    intro x hx
    rcases List.mem_cons.mp hx with rfl | hx
    · exact s1
    · exact r1 x hx

lemma process_interactions_WF (e : Ecosystem) (hw : WF e) :
    WF (e.process_interactions).1 := by
  obtain ⟨hf, ht, hs, hp⟩ := hw
  unfold Ecosystem.process_interactions passFishPlants passTroutFish
    passSharkTrout
  dsimp only
  obtain ⟨f1, p1⟩ := passPreyAll_wf Animal.eatPlant Plant.rect
    (fun a en => Event.eat a.x a.y en "pez") Plant.eid wfPlant
    (fun a p hap hpp => eatPlant_self_wf a p hap hpp)
    (fun a p hpp => eatPlant_prey_wf a p hpp) e.fish e.plants hf hp
  obtain ⟨t1, f2⟩ := passPreyAll_wf Animal.eatAnimal Animal.rect
    (fun a en => Event.eat a.x a.y en "trucha") Animal.eid wfAnimal
    (fun a q haq hqq => eatAnimal_self_wf a q haq hqq)
    (fun a q hqq => eatAnimal_prey_wf a q hqq) e.trout
    (passPreyAll Animal.eatPlant Plant.rect
      (fun a en => Event.eat a.x a.y en "pez") Plant.eid e.fish e.plants).1
    ht f1
  obtain ⟨s1, t2⟩ := passPreyAll_wf Animal.eatAnimal Animal.rect
    (fun a en => Event.eat a.x a.y en "tiburon") Animal.eid wfAnimal
    (fun a q haq hqq => eatAnimal_self_wf a q haq hqq)
    (fun a q hqq => eatAnimal_prey_wf a q hqq) e.sharks
    (passPreyAll Animal.eatAnimal Animal.rect
      (fun a en => Event.eat a.x a.y en "trucha") Animal.eid e.trout
      (passPreyAll Animal.eatPlant Plant.rect
        (fun a en => Event.eat a.x a.y en "pez") Plant.eid e.fish
        e.plants).1).1
    hs t1
  exact ⟨f2, t2, s1, p1⟩

lemma grow_wf (dt : ℚ) (p : Plant) (hp : wfPlant p) (hdt : 0 ≤ dt) :
    wfPlant (Plant.grow dt p) := by
  obtain ⟨g1, g2⟩ := hp
  exact ⟨le_min (by norm_num) (add_nonneg g1 (by positivity)), g2⟩

lemma balance_WF (e : Ecosystem) (rng : Rng) (hw : WF e) :
    WF (e.balance_populations rng).1 := by
  unfold Ecosystem.balance_populations
  split
  · refine foldl_preserves (fun s : Ecosystem × Rng => WF s.1) _ _ (e, rng)
      hw ?_
    intro s i hs
    dsimp only
    obtain ⟨f1, t1, s1, p1⟩ := assign_id_plant_WF s.1 (Plant.new 0 0 0) hs
    refine ⟨f1, t1, s1, ?_⟩
    intro x hx
    rcases List.mem_append.mp hx with hx | hx
    · exact p1 x hx
    · simp only [List.mem_singleton] at hx
      subst hx
      exact wf_plant_set_random _ _ (assign_id_plant_wf _ _ (plant_new_wf 0 0 0))
  · split
    · exact ⟨hw.1, hw.2.1, hw.2.2.1,
        fun p hp => hw.2.2.2 p (List.take_subset _ _ hp)⟩
    · exact hw

lemma initialize_WF (plantas peces truchas tiburones : ℕ) (rng : Rng) :
    WF (Ecosystem.initialize_population plantas peces truchas tiburones rng).1 := by
  unfold Ecosystem.initialize_population
  dsimp only
  refine foldl_preserves (fun s : Ecosystem × Rng => WF s.1) _ _ _ ?_ ?_
  · refine foldl_preserves (fun s : Ecosystem × Rng => WF s.1) _ _ _ ?_ ?_
    · refine foldl_preserves (fun s : Ecosystem × Rng => WF s.1) _ _ _ ?_ ?_
      · refine foldl_preserves (fun s : Ecosystem × Rng => WF s.1) _ _ _ ?_ ?_
        · exact ⟨by simp [Ecosystem.empty], by simp [Ecosystem.empty],
            by simp [Ecosystem.empty], by simp [Ecosystem.empty]⟩
        · intro s i hs
          dsimp only
          obtain ⟨f1, t1, s1, p1⟩ := assign_id_plant_WF s.1 (Plant.new 0 0 0) hs
          refine ⟨f1, t1, s1, ?_⟩
          intro x hx
          rcases List.mem_append.mp hx with hx | hx
          · exact p1 x hx
          · simp only [List.mem_singleton] at hx
            subst hx
            exact wf_plant_set_random _ _
              (assign_id_plant_wf _ _ (plant_new_wf 0 0 0))
      · intro s i hs
        dsimp only
        obtain ⟨f1, t1, s1, p1⟩ :=
          assign_id_animal_WF s.1 (Fish.new 0 0 0 s.2.next.1) hs
        refine ⟨?_, t1, s1, p1⟩
        intro x hx
        rcases List.mem_append.mp hx with hx | hx
        · exact f1 x hx
        · simp only [List.mem_singleton] at hx
          subst hx
          exact wf_set_random _ _
            (assign_id_animal_wf _ _ (fish_new_wf 0 0 0 _))
    · intro s i hs
      dsimp only
      obtain ⟨f1, t1, s1, p1⟩ :=
        assign_id_animal_WF s.1 (Trout.new 0 0 0 s.2.next.1) hs
      refine ⟨f1, ?_, s1, p1⟩
      intro x hx
      rcases List.mem_append.mp hx with hx | hx
      · exact t1 x hx
      · simp only [List.mem_singleton] at hx
        subst hx
        exact wf_set_random _ _
          (assign_id_animal_wf _ _ (trout_new_wf 0 0 0 _))
  · intro s i hs
    dsimp only
    obtain ⟨f1, t1, s1, p1⟩ :=
      assign_id_animal_WF s.1 (Shark.new 0 0 0 s.2.next.1) hs
    refine ⟨f1, t1, ?_, p1⟩
    intro x hx
    rcases List.mem_append.mp hx with hx | hx
    · exact s1 x hx
    · simp only [List.mem_singleton] at hx
      subst hx
      exact wf_set_random _ _
        (assign_id_animal_wf _ _ (shark_new_wf 0 0 0 _))

lemma WF_turn_count (X : Ecosystem) (n : ℕ) :
    WF { X with turn_count := n } ↔ WF X := Iff.rfl

lemma ecosystem_update_WF (e : Ecosystem) (dt : ℚ) (rng : Rng) (hw : WF e)
    (hdt : 0 ≤ dt) : WF (e.update dt rng).1 := by
  unfold Ecosystem.update
  split
  · exact hw
  · dsimp only
    rw [WF_turn_count]
    refine balance_WF _ _ (process_interactions_WF _
      (update_animals_WF _ dt _ ⟨?_, ?_, ?_, ?_⟩ hdt))
    · exact fun a ha => hw.1 a ha
    · exact fun a ha => hw.2.1 a ha
    · exact fun a ha => hw.2.2.1 a ha
    · intro p hp
      obtain ⟨p0, hp0, rfl⟩ := List.mem_map.mp hp
      exact grow_wf dt p0 (hw.2.2.2 p0 hp0) hdt

/-- Claim C4: for every animal in the ecosystem, `0 ≤ energy ≤ max_energy`
holds at every observable point of any run: `initialize` produces only
well-formed states; one full `Ecosystem.update` turn (the per-animal
consumption clamped below at `0`, eating clamped above at `max_energy`,
reproduction costs covered by the `can_reproduce` thresholds) preserves
well-formedness whenever `0 ≤ delta_time`; and in every well-formed state
every fish, trout and shark satisfies the energy bounds.  Chaining the three
parts gives the bounds after any sequence of simulation turns starting from
initialization. -/
theorem C4_energy_bounds :
    (∀ plantas peces truchas tiburones rng,
        WF (Ecosystem.initialize_population plantas peces truchas tiburones
          rng).1) ∧
    (∀ e dt rng, WF e → 0 ≤ dt → WF (Ecosystem.update e dt rng).1) ∧
    (∀ e, WF e → ∀ a ∈ e.fish ++ e.trout ++ e.sharks,
        0 ≤ a.energy ∧ a.energy ≤ a.max_energy) := by
  refine ⟨initialize_WF,
    fun e dt rng hw hdt => ecosystem_update_WF e dt rng hw hdt, ?_⟩
  intro e hw a ha
  rcases List.mem_append.mp ha with ha | ha
  · rcases List.mem_append.mp ha with ha | ha
    · exact ⟨(hw.1 a ha).1, (hw.1 a ha).2.1⟩
    · exact ⟨(hw.2.1 a ha).1, (hw.2.1 a ha).2.1⟩
  · exact ⟨(hw.2.2.1 a ha).1, (hw.2.2.1 a ha).2.1⟩

/-- Witness for C4: the concrete one-fish ecosystem `C4_eco` is well-formed,
one `update` turn on it keeps well-formedness, and its animals satisfy the
energy bounds. -/
theorem C4_witness :
    WF (Ecosystem.update C4_eco 1 ⟨[]⟩).1 ∧
      ∀ a ∈ C4_eco.fish ++ C4_eco.trout ++ C4_eco.sharks,
        0 ≤ a.energy ∧ a.energy ≤ a.max_energy :=
  ⟨C4_energy_bounds.2.1 C4_eco 1 ⟨[]⟩ (by with_unfolding_all decide)
      (by norm_num),
    C4_energy_bounds.2.2 C4_eco (by with_unfolding_all decide)⟩

end EcoSim
